import Mathlib

/-!
# Verification of the xcoff_tool snapshot/diff engine

Shallow embedding of `src/tools/xcoff_tool` (core.py, analyzers.py, storage.py).
Python values flowing through the program (JSON records, analyzer `data`
dictionaries) are modelled by the `Json` type below; Python dictionaries are
insertion-ordered association lists with string keys, which covers every
dictionary this program constructs (parser outputs, literals, parsed JSON).
Python-level faults (KeyError, AttributeError, TypeError) are modelled with
`Except PyErr`.
-/

set_option maxHeartbeats 1000000

/-- A Python/JSON value.  Numbers are integers (every numeric field in this
program is an integer); dictionaries are insertion-ordered association lists. -/
inductive Json where
  | null : Json
  | bool (b : Bool) : Json
  | num (n : Int) : Json
  | str (s : String) : Json
  | arr (elems : List Json) : Json
  | obj (entries : List (String × Json)) : Json

/-! Structural equality on `Json` values (Python `==`; dictionaries the
program builds have a deterministic construction order, so structural
equality models dict equality here). -/

mutual

def Json.beq : Json → Json → Bool
  | .null, .null => true
  | .bool a, .bool b => a == b
  | .num a, .num b => a == b
  | .str a, .str b => a == b
  | .arr xs, .arr ys => Json.beqList xs ys
  | .obj xs, .obj ys => Json.beqEntries xs ys
  | _, _ => false

def Json.beqList : List Json → List Json → Bool
  | [], [] => true
  | x :: xs, y :: ys => Json.beq x y && Json.beqList xs ys
  | _, _ => false

def Json.beqEntries : List (String × Json) → List (String × Json) → Bool
  | [], [] => true
  | (k, v) :: xs, (k2, v2) :: ys => k == k2 && Json.beq v v2 && Json.beqEntries xs ys
  | _, _ => false

end

theorem Json.beq_iff_eq_aux :
    ∀ (n : Nat) (a b : Json), sizeOf a < n → (Json.beq a b = true ↔ a = b) := by
  intro n
  induction n with
  | zero => intro a b h; exact absurd h (Nat.not_lt_zero _)
  | succ n ih =>
    intro a b ha
    have listAux : ∀ (xs ys : List Json), (∀ x ∈ xs, sizeOf x < n) →
        (Json.beqList xs ys = true ↔ xs = ys) := by
      intro xs
      induction xs with
      | nil => intro ys _; cases ys <;> simp [Json.beqList]
      | cons x xs ihx =>
        intro ys hsz
        cases ys with
        | nil => simp [Json.beqList]
        | cons y ys =>
          have h1 := ih x y (hsz x (by simp))
          have h2 := ihx ys (fun z hz => hsz z (by simp [hz]))
          simp [Json.beqList, Bool.and_eq_true, h1, h2]
    have entAux : ∀ (xs ys : List (String × Json)), (∀ kv ∈ xs, sizeOf kv.2 < n) →
        (Json.beqEntries xs ys = true ↔ xs = ys) := by
      intro xs
      induction xs with
      | nil => intro ys _; cases ys <;> simp [Json.beqEntries]
      | cons kv xs ihx =>
        intro ys hsz
        cases ys with
        | nil => simp [Json.beqEntries]
        | cons kv2 ys =>
          have h1 := ih kv.2 kv2.2 (hsz kv (by simp))
          have h2 := ihx ys (fun z hz => hsz z (by simp [hz]))
          obtain ⟨k, v⟩ := kv
          obtain ⟨k2, v2⟩ := kv2
          simp only [Json.beqEntries, Bool.and_eq_true, beq_iff_eq, List.cons.injEq,
            Prod.mk.injEq]
          simp only [Prod.snd] at h1
          rw [h1, h2]
    cases a <;> cases b <;> simp [Json.beq]
    case arr.arr xs ys =>
      refine listAux xs ys (fun x hx => ?_)
      have h1 : sizeOf x < sizeOf xs := List.sizeOf_lt_of_mem hx
      have h2 : sizeOf (Json.arr xs) = 1 + sizeOf xs := by simp
      omega
    case obj.obj xs ys =>
      refine entAux xs ys (fun kv hkv => ?_)
      have h1 : sizeOf kv < sizeOf xs := List.sizeOf_lt_of_mem hkv
      have h2 : sizeOf (Json.obj xs) = 1 + sizeOf xs := by simp
      have h3 : sizeOf kv.2 < sizeOf kv := by
        obtain ⟨k, v⟩ := kv
        simp
      omega

theorem Json.beq_iff_eq (a b : Json) : Json.beq a b = true ↔ a = b :=
  Json.beq_iff_eq_aux (sizeOf a + 1) a b (Nat.lt_succ_self _)

instance : DecidableEq Json :=
  fun a b => decidable_of_iff (Json.beq a b = true) (Json.beq_iff_eq a b)

/-- Python exceptions that the modelled code can raise. -/
inductive PyErr where
  | keyError : PyErr
  | attributeError : PyErr
  | typeError : PyErr
  deriving DecidableEq

instance {ε α : Type} [DecidableEq ε] [DecidableEq α] : DecidableEq (Except ε α) :=
  fun a b =>
    match a, b with
    | .ok x, .ok y =>
        if h : x = y then .isTrue (by rw [h]) else .isFalse (fun he => h (Except.ok.inj he))
    | .error e, .error e2 =>
        if h : e = e2 then .isTrue (by rw [h])
        else .isFalse (fun he => h (Except.error.inj he))
    | .ok _, .error _ => .isFalse (fun he => Except.noConfusion he)
    | .error _, .ok _ => .isFalse (fun he => Except.noConfusion he)

/-- `AnalysisResult` dataclass (core.py).  Field values are dynamic (`Json`)
because `from_dict` copies whatever the persisted JSON holds. -/
structure AnalysisResult where
  analyzer_name : Json
  success : Json
  data : Json
  error : Json
  truncated : Json
  deriving DecidableEq

/-- `Snapshot` dataclass (core.py).  `results` is the analyzer-name-keyed
dictionary. -/
structure Snapshot where
  filepath : Json
  timestamp : Json
  file_size : Json
  file_mtime : Json
  file_type : Json
  name : Json
  results : List (String × AnalysisResult)
  deriving DecidableEq

/-- `ComparisonResult` dataclass (core.py). -/
structure ComparisonResult where
  filepath1 : Json
  filepath2 : Json
  has_differences : Bool
  summary : String
  analyzer_diffs : List (String × Json)
  deriving DecidableEq

/-- `ValidationResult` dataclass (core.py); constructed only by the validator,
so its fields keep their static dataclass types. -/
structure ValidationResult where
  valid : Bool
  file_type : Option String
  error : Option String
  details : List (String × Json)
  deriving DecidableEq

/-! ## Python primitives

Helpers mirroring the Python string/dict/list operations the source uses.
Whitespace is ASCII (the inputs are command output); `\x0b`/`\x0c` are included
to match Python `str.split`/`str.strip`. -/

/-- Python whitespace test (ASCII subset of `str.isspace`). -/
def pyIsSpaceChar (c : Char) : Bool :=
  c = ' ' || c = '\t' || c = '\n' || c = '\x0d' || c = '\x0b' || c = '\x0c'

/-- Python `str.strip()` with no argument: trim whitespace at both ends. -/
def pyStrip (s : String) : String :=
  String.mk (((s.data.dropWhile pyIsSpaceChar).reverse.dropWhile pyIsSpaceChar).reverse)

/-- Python `str.lstrip(chars)`: drop leading characters belonging to `chars`. -/
def pyLstrip (s chars : String) : String :=
  String.mk (s.data.dropWhile (fun c => c ∈ chars.data))

/-- Python `str.rstrip(chars)`: drop trailing characters belonging to `chars`.
Note this strips a character *set*, not a suffix. -/
def pyRstrip (s chars : String) : String :=
  String.mk ((s.data.reverse.dropWhile (fun c => c ∈ chars.data)).reverse)

/-- Python `str.replace(old, "")` for a single-character `old`. -/
def pyRemoveChar (s : String) (c : Char) : String :=
  String.mk (s.data.filter (fun d => d ≠ c))

/-- Core of Python `str.split()` (no argument): split on whitespace runs,
producing no empty fields.  `tok` accumulates the current token in reverse. -/
def pySplitWsAux : List Char → List Char → List String
  | [], tok => if tok.isEmpty then [] else [String.mk tok.reverse]
  | c :: rest, tok =>
      if pyIsSpaceChar c then
        if tok.isEmpty then pySplitWsAux rest []
        else String.mk tok.reverse :: pySplitWsAux rest []
      else pySplitWsAux rest (c :: tok)

/-- Python `str.split()` (no argument). -/
def pySplitWs (s : String) : List String :=
  pySplitWsAux s.data []

/-- Split a character list at every newline, keeping empty segments (the
segment list is never empty). -/
def splitNl : List Char → List (List Char)
  | [] => [[]]
  | c :: rest =>
      if c = '\n' then [] :: splitNl rest
      else
        match splitNl rest with
        | seg :: segs => (c :: seg) :: segs
        | [] => [[c]]

/-- Python `str.splitlines()` restricted to `\n` separators (subprocess text
mode already normalises `\r\n`): split on `\n`, dropping a final empty field. -/
def pySplitlines (s : String) : List String :=
  if s.data.isEmpty then []
  else
    let parts := (splitNl s.data).map String.mk
    if parts.getLast? = some "" then parts.dropLast else parts

/-- Python `sub in s` substring test, over character lists. -/
def listContainsSub (needle : List Char) : List Char → Bool
  | [] => needle.isEmpty
  | c :: rest => needle.isPrefixOf (c :: rest) || listContainsSub needle rest

/-- Python `sub in s` substring test. -/
def pyContains (s sub : String) : Bool :=
  listContainsSub sub.data s.data

/-- Python `str.isdigit()` (ASCII). -/
def pyIsDigit (s : String) : Bool :=
  ¬ s.data.isEmpty && s.data.all Char.isDigit

/-- Python `int(...)` on a string of ASCII digits. -/
def pyIntOfDigits (s : String) : Int :=
  Int.ofNat (s.data.foldl (fun acc c => acc * 10 + (c.toNat - 48)) 0)

/-- First-match association-list lookup: Python `dict.get` / `d[k]` lookup. -/
def pyLookup {β : Type} (entries : List (String × β)) (k : String) : Option β :=
  match entries with
  | [] => none
  | (k', v) :: rest => if k' = k then some v else pyLookup rest k

/-- Python `d[k] = v`: replace the value at the first occurrence of `k`,
keeping its position, else append `(k, v)`. -/
def pyDictInsert {β : Type} (entries : List (String × β)) (k : String) (v : β) :
    List (String × β) :=
  match entries with
  | [] => [(k, v)]
  | (k', v') :: rest =>
      if k' = k then (k', v) :: rest else (k', v') :: pyDictInsert rest k v

/-- Helper for `pyDedupFirst`: `seen` holds already-emitted elements. -/
def pyDedupFirstAux {β : Type} [DecidableEq β] : List β → List β → List β
  | [], _ => []
  | x :: rest, seen =>
      if x ∈ seen then pyDedupFirstAux rest seen
      else x :: pyDedupFirstAux rest (x :: seen)

/-- Python set construction order: deduplicate keeping first occurrences (set
iteration order is unspecified in Python; only membership matters here). -/
def pyDedupFirst {β : Type} [DecidableEq β] (l : List β) : List β :=
  pyDedupFirstAux l []

/-- `d.get(k, default)` where `d` must be a dict (`AttributeError` otherwise). -/
def pyDictGet (j : Json) (k : String) (dflt : Json) : Except PyErr Json :=
  match j with
  | .obj entries => .ok ((pyLookup entries k).getD dflt)
  | _ => .error .attributeError

/-- `d[k]` where `d` must be a dict: `KeyError` if the key is absent,
`TypeError` when indexing a non-dict with a string. -/
def pyDictIndex (j : Json) (k : String) : Except PyErr Json :=
  match j with
  | .obj entries =>
      match pyLookup entries k with
      | some v => .ok v
      | none => .error .keyError
  | _ => .error .typeError

/-- `d.items()` where `d` must be a dict (`AttributeError` otherwise). -/
def pyItems (j : Json) : Except PyErr (List (String × Json)) :=
  match j with
  | .obj entries => .ok entries
  | _ => .error .attributeError

/-- Python iteration `for x in j`: lists yield elements, dicts their keys,
strings their characters; other values raise `TypeError`. -/
def pyIterList (j : Json) : Except PyErr (List Json) :=
  match j with
  | .arr xs => .ok xs
  | .obj entries => .ok (entries.map (fun kv => Json.str kv.1))
  | .str s => .ok (s.data.map (fun c => Json.str (String.mk [c])))
  | _ => .error .typeError

/-- Python `set(xs)`: raise `TypeError` on an unhashable element (list/dict),
else deduplicate. -/
def pySet (xs : List Json) : Except PyErr (List Json) :=
  if xs.any (fun x => match x with | .arr _ => true | .obj _ => true | _ => false) then
    .error .typeError
  else
    .ok (pyDedupFirst xs)

/-- Set difference `a - b` on dedup lists. -/
def pySetDiff (a b : List Json) : List Json :=
  a.filter (fun x => x ∉ b)

/-- Size of the set intersection `a & b` on dedup lists. -/
def pySetInterLen (a b : List Json) : Nat :=
  (a.filter (fun x => x ∈ b)).length

/-- Python set equality `set(a) == set(b)` on dedup lists. -/
def pySetEq (a b : List Json) : Bool :=
  a.all (fun x => x ∈ b) && b.all (fun x => x ∈ a)

/-! ## Snapshot serialization (core.py: `Snapshot.to_dict` / `Snapshot.from_dict`) -/

/-- `Snapshot.to_dict` (core.py lines 46-65). -/
def Snapshot.toDict (s : Snapshot) : Json :=
  Json.obj
    [("version", Json.str "1.0"),
     ("name", s.name),
     ("filepath", s.filepath),
     ("timestamp", s.timestamp),
     ("file_size", s.file_size),
     ("file_mtime", s.file_mtime),
     ("file_type", s.file_type),
     ("results",
       Json.obj (s.results.map (fun kv =>
         (kv.1, Json.obj
           [("success", kv.2.success),
            ("data", kv.2.data),
            ("error", kv.2.error),
            ("truncated", kv.2.truncated)]))))]

/-- One iteration of the `results` loop in `Snapshot.from_dict`
(core.py lines 70-78). -/
def fromDictResult (kv : String × Json) : Except PyErr (String × AnalysisResult) := do
  let succ ← pyDictGet kv.2 "success" (Json.bool false)
  let dat ← pyDictGet kv.2 "data" (Json.obj [])
  let err ← pyDictGet kv.2 "error" Json.null
  let trunc ← pyDictGet kv.2 "truncated" (Json.bool false)
  pure (kv.1, AnalysisResult.mk (Json.str kv.1) succ dat err trunc)

/-- The `results` loop of `Snapshot.from_dict`, first faulting entry wins. -/
def fromDictResults : List (String × Json) → Except PyErr (List (String × AnalysisResult))
  | [] => Except.ok []
  | kv :: rest => do
      let r ← fromDictResult kv
      let rs ← fromDictResults rest
      pure (r :: rs)

/-- `Snapshot.from_dict` (core.py lines 67-88).  Mirrors the Python evaluation
order: the `results` loop runs before the required-key accesses, so a missing
required key raises `KeyError` only after the loop, and a non-dict value
raises `AttributeError`. -/
def Snapshot.fromDict (data : Json) : Except PyErr Snapshot := do
  let resultsJ ← pyDictGet data "results" (Json.obj [])
  let entries ← pyItems resultsJ
  let results ← fromDictResults entries
  let filepath ← pyDictIndex data "filepath"
  let timestamp ← pyDictIndex data "timestamp"
  let fileSize ← pyDictIndex data "file_size"
  let fileMtime ← pyDictIndex data "file_mtime"
  let fileType ← pyDictGet data "file_type" (Json.str "unknown")
  let nameV ← pyDictGet data "name" Json.null
  pure (Snapshot.mk filepath timestamp fileSize fileMtime fileType nameV results)

/-! ## Store (storage.py)

The filesystem under `<db_path>/snapshots/` is modelled as an association
list from `(snapshot name, relative storage path)` to the file's content: a
record either holds parseable JSON (`jsonFile`) or text that
`json.load` rejects (`rawFile`).  Directory creation, the `indent=2`
pretty-printing and the registry file are irrelevant to the modelled claims
and are omitted. -/

/-- Content of one stored record file. -/
inductive FileContent where
  | jsonFile (v : Json) : FileContent
  | rawFile (s : String) : FileContent
  deriving DecidableEq

/-- The `snapshots/` directory tree. -/
def SnapStore : Type := List ((String × String) × FileContent)

/-- Lookup a record file by `(name, relative path)`. -/
def storeLookup (fs : SnapStore) (key : String × String) : Option FileContent :=
  match fs with
  | [] => none
  | (k, v) :: rest => if k = key then some v else storeLookup rest key

/-- Write a record file (overwrite if present). -/
def storeWrite (fs : SnapStore) (key : String × String) (v : FileContent) : SnapStore :=
  match fs with
  | [] => [(key, v)]
  | (k, v') :: rest =>
      if k = key then (k, v) :: rest else (k, v') :: storeWrite rest key v

/-- `Storage._filepath_to_relpath` (storage.py lines 34-40): strip leading
`/` then leading `\`, delete every `:`, append `".json"`. -/
def filepathToRelpath (filepath : String) : String :=
  pyRemoveChar (pyLstrip (pyLstrip filepath "/") "\\") ':' ++ ".json"

/-- `Storage._relpath_to_filepath` (storage.py lines 42-46):
`"/" + relpath.rstrip(".json")`.  `rstrip` strips the character set
`{'.', 'j', 's', 'o', 'n'}`, not the suffix. -/
def relpathToFilepath (relpath : String) : String :=
  "/" ++ pyRstrip relpath ".json"

/-- `Storage.store` (storage.py lines 48-69): set `snapshot.name`, write
`to_dict` JSON at `(name, relpath(snapshot.filepath))`.  `AttributeError`
if `snapshot.filepath` is not a string (as `lstrip` would raise). -/
def storeSnapshot (fs : SnapStore) (name : String) (snapshot : Snapshot) :
    Except PyErr (SnapStore × Snapshot) := do
  let fp ← (match snapshot.filepath with
    | Json.str s => Except.ok s
    | _ => Except.error PyErr.attributeError)
  let snap := { snapshot with name := Json.str name }
  let relPath := filepathToRelpath fp
  Except.ok (storeWrite fs (name, relPath) (FileContent.jsonFile snap.toDict), snap)

/-- `Storage.load` (storage.py lines 71-85): absent file and the caught
exceptions (`json.JSONDecodeError`, `KeyError`) give `none`; any other
exception from `from_dict` propagates. -/
def loadSnapshot (fs : SnapStore) (name filepath : String) :
    Except PyErr (Option Snapshot) :=
  match storeLookup fs (name, filepathToRelpath filepath) with
  | none => Except.ok none
  | some (FileContent.rawFile _) => Except.ok none
  | some (FileContent.jsonFile v) =>
      match Snapshot.fromDict v with
      | Except.ok snap => Except.ok (some snap)
      | Except.error PyErr.keyError => Except.ok none
      | Except.error e => Except.error e

/-! ## Validator (core.py: `XCOFFValidator`)

`validate` reads at most the first 20 bytes and the file size; the model
takes the file's bytes (the existence/readability guards and `IOError`
branch concern files that cannot be read and are outside this pure core). -/

/-- Big-endian 16-bit field at byte offset `i` (`struct.unpack(">H", ...)`). -/
def be16 (bytes : List Nat) (i : Nat) : Nat :=
  bytes.getD i 0 * 256 + bytes.getD (i + 1) 0

/-- Big-endian 32-bit field at byte offset `i` (`struct.unpack(">I", ...)`). -/
def be32 (bytes : List Nat) (i : Nat) : Nat :=
  ((bytes.getD i 0 * 256 + bytes.getD (i + 1) 0) * 256 + bytes.getD (i + 2) 0) * 256 +
    bytes.getD (i + 3) 0

/-- Uppercase hex digit. -/
def hexDigitChar (n : Nat) : Char :=
  if n < 10 then Char.ofNat (48 + n) else Char.ofNat (55 + n)

/-- Python `"%04X" % n` for the 16-bit fields formatted in `details`
(width is exactly 4 because the fields fit in two bytes). -/
def hex4 (n : Nat) : String :=
  String.mk [hexDigitChar (n / 4096 % 16), hexDigitChar (n / 256 % 16),
    hexDigitChar (n / 16 % 16), hexDigitChar (n % 16)]

/-- `XCOFFValidator.MAGIC_32`. -/
def MAGIC_32 : Nat := 0x01DF

/-- `XCOFFValidator.MAGIC_64`. -/
def MAGIC_64 : Nat := 0x01F7

/-- `XCOFFValidator.AR_MAGIC` (`b"!<arch>\n"`). -/
def arMagic : List Nat := [33, 60, 97, 114, 99, 104, 62, 10]

/-- The `errors` list built in `XCOFFValidator._validate_xcoff`
(core.py lines 183-189). -/
def xcoffErrors (nscns symptr opthdr fileSize : Nat) : List String :=
  (if nscns > 1000 then [s!"Suspicious section count: {nscns}"] else []) ++
  (if symptr > 0 ∧ symptr > fileSize then ["Symbol table offset beyond file size"]
   else []) ++
  (if opthdr > 1024 then [s!"Suspicious optional header size: {opthdr}"] else [])

/-- `XCOFFValidator._validate_xcoff` (core.py lines 164-203). -/
def validateXcoff (header : List Nat) (fileSize : Nat) (fileType : String) :
    ValidationResult :=
  let magic := be16 header 0
  let nscns := be16 header 2
  let timdat := be32 header 4
  let symptr := be32 header 8
  let nsyms := be32 header 12
  let opthdr := be16 header 16
  let flags := be16 header 18
  let details : List (String × Json) :=
    [("magic", Json.str ("0x" ++ hex4 magic)),
     ("sections", Json.num nscns),
     ("timestamp", Json.num timdat),
     ("symbol_table_offset", Json.num symptr),
     ("symbol_count", Json.num nsyms),
     ("optional_header_size", Json.num opthdr),
     ("flags", Json.str ("0x" ++ hex4 flags)),
     ("file_size", Json.num fileSize)]
  let errors := xcoffErrors nscns symptr opthdr fileSize
  if errors.isEmpty then ValidationResult.mk true (some fileType) none details
  else
    ValidationResult.mk false (some fileType)
      (some (String.intercalate "; " errors)) details

/-- `XCOFFValidator.validate` (core.py lines 108-162) on the bytes of an
existing, readable file. -/
def validate (content : List Nat) : ValidationResult :=
  let fileSize := content.length
  if fileSize < 20 then
    ValidationResult.mk false none (some s!"File too small: {fileSize} bytes")
      [("file_size", Json.num fileSize)]
  else
    let header := content.take 20
    if header.take 8 = arMagic then
      ValidationResult.mk true (some "archive") none [("file_size", Json.num fileSize)]
    else
      let magic := be16 header 0
      if magic = MAGIC_32 then validateXcoff header fileSize "xcoff32"
      else if magic = MAGIC_64 then validateXcoff header fileSize "xcoff64"
      else
        ValidationResult.mk false none (some ("Invalid magic: 0x" ++ hex4 magic))
          [("magic", Json.num magic), ("file_size", Json.num fileSize)]

/-! ## Analyzers (analyzers.py)

An external command invocation is an oracle `run : List String → Completed`
mapping the argument vector to its exit code, stdout and stderr (each
analyzer invokes exactly one fixed command shape).  The
`subprocess.TimeoutExpired` / unexpected-exception handlers concern the
process layer and are outside this pure model. -/

/-- `subprocess.CompletedProcess` with text-mode output. -/
structure Completed where
  returncode : Int
  stdout : String
  stderr : String

/-- `result.stderr.strip() or f"Exit code {result.returncode}"`. -/
def strOrExitCode (stderr : String) (rc : Int) : String :=
  if pyStrip stderr = "" then s!"Exit code {rc}" else pyStrip stderr

/-- `WhatAnalyzer._parse_output` (analyzers.py lines 112-120): keep every
non-empty stripped line that does not end with `":"`. -/
def parseWhatOutput (output : String) : List String :=
  (pySplitlines output).filterMap (fun l =>
    let line := pyStrip l
    if line ≠ "" ∧ ¬ line.endsWith ":" then some line else none)

/-- `WhatAnalyzer.analyze` (analyzers.py lines 76-110), non-exception path. -/
def whatAnalyze (run : List String → Completed) (filepath : String) : AnalysisResult :=
  let result := run ["what", filepath]
  if result.returncode ≠ 0 ∧ result.stdout = "" then
    AnalysisResult.mk (Json.str "what") (Json.bool false) (Json.obj [])
      (Json.str (strOrExitCode result.stderr result.returncode)) (Json.bool false)
  else
    let strings := parseWhatOutput result.stdout
    AnalysisResult.mk (Json.str "what") (Json.bool true)
      (Json.obj [("strings", Json.arr (strings.map Json.str)),
        ("count", Json.num strings.length)])
      Json.null (Json.bool false)

/-- `DumpLoaderAnalyzer._extract_symbol_name` (analyzers.py lines 344-359),
already walking the reversed token list: skip marker/storage-class tokens,
hex- or bracket-prefixed tokens and pure numbers; return the first remaining
token not starting with `"."`. -/
def extractSymbolNameRev : List String → Option String
  | [] => none
  | part :: rest =>
      if part = "IMP" ∨ part = "EXP" ∨ part = "EXTref" ∨ part = "SECdef" ∨ part = "DS" then
        extractSymbolNameRev rest
      else if part.startsWith "0x" || part.startsWith "[" then extractSymbolNameRev rest
      else if pyIsDigit part then extractSymbolNameRev rest
      else if part ≠ "" ∧ ¬ part.startsWith "." then some part
      else extractSymbolNameRev rest

/-- `DumpLoaderAnalyzer._extract_symbol_name`: iterate `reversed(parts)`. -/
def extractSymbolName (parts : List String) : Option String :=
  extractSymbolNameRev parts.reverse

/-- `DumpLoaderAnalyzer._extract_address` (analyzers.py lines 361-366). -/
def extractAddress : List String → Option String
  | [] => none
  | part :: rest => if part.startsWith "0x" then some part else extractAddress rest

/-- One iteration of the line loop in `DumpLoaderAnalyzer._parse_output`
(analyzers.py lines 307-341); the accumulator is `(imports, exports)`. -/
def parseLoaderLine (acc : List Json × List Json) (rawLine : String) :
    List Json × List Json :=
  let line := pyStrip rawLine
  if line = "" then acc
  else
    let parts := pySplitWs line
    if parts.length < 4 then acc
    else if pyContains line "IMP" || pyContains line "EXTref" then
      match extractSymbolName parts with
      | some nm =>
          (acc.1 ++ [Json.obj [("name", Json.str nm), ("type", Json.str "IMP"),
            ("raw", Json.str line)]], acc.2)
      | none => acc
    else if pyContains line "EXP" || pyContains line "SECdef" then
      match extractSymbolName parts with
      | some nm =>
          (acc.1, acc.2 ++ [Json.obj [("name", Json.str nm), ("type", Json.str "EXP"),
            ("address", match extractAddress parts with
              | some a => Json.str a
              | none => Json.null),
            ("raw", Json.str line)]])
      | none => acc
    else acc

/-- `DumpLoaderAnalyzer._parse_output` over a pre-split line list. -/
def loaderParseLines (lines : List String) : List Json × List Json :=
  lines.foldl parseLoaderLine ([], [])

/-- `DumpLoaderAnalyzer._parse_output` (analyzers.py lines 302-342). -/
def parseLoaderOutput (output : String) : List Json × List Json :=
  loaderParseLines (pySplitlines output)

/-- `DumpLoaderAnalyzer.analyze` (analyzers.py lines 262-300), non-exception
path: one invocation of `dump -Tv <path>`; a non-zero exit is immediately a
failed result. -/
def dumpLoaderAnalyze (run : List String → Completed) (filepath : String) :
    AnalysisResult :=
  let result := run ["dump", "-Tv", filepath]
  if result.returncode ≠ 0 then
    AnalysisResult.mk (Json.str "dump-T") (Json.bool false) (Json.obj [])
      (Json.str (strOrExitCode result.stderr result.returncode)) (Json.bool false)
  else
    let parsed := parseLoaderOutput result.stdout
    AnalysisResult.mk (Json.str "dump-T") (Json.bool true)
      (Json.obj [("imports", Json.arr parsed.1), ("exports", Json.arr parsed.2),
        ("import_count", Json.num parsed.1.length),
        ("export_count", Json.num parsed.2.length),
        ("raw", Json.str result.stdout)])
      Json.null (Json.bool false)

/-! ## Section-header analyzer parser (analyzers.py: `DumpHeadersAnalyzer`)

The dense AIX fallback is
`re.finditer(r"^\s*(\d+)\s+(\.\w+|\w+)\s+([0-9a-fA-Fx]+)\s+([0-9a-fA-Fx]+)",
output, re.MULTILINE)`.  Adjacent pieces of this pattern draw from disjoint
character classes, so greedy maximal-munch matching is equivalent to the
backtracking engine; `^` in MULTILINE mode anchors matches at the string
start or right after a newline, and `finditer` scans left to right,
continuing after each (non-empty) match.  Character classes are ASCII
(`\w` = alphanumeric or underscore), matching the command output domain. -/

/-- `\w` (ASCII). -/
def pyIsWordChar (c : Char) : Bool :=
  c.isAlpha && c.toNat < 128 || c.isDigit || c = '_'

/-- The class `[0-9a-fA-Fx]`. -/
def isHexxChar (c : Char) : Bool :=
  c.isDigit || ('a' ≤ c && c ≤ 'f') || ('A' ≤ c && c ≤ 'F') || c = 'x'

/-- Munch a non-empty maximal run of characters satisfying `p`
(one `+`-quantified character class of the pattern). -/
def munch1 (p : Char → Bool) (cs : List Char) : Option (List Char × List Char) :=
  let tok := cs.takeWhile p
  if tok.isEmpty then none else some (tok, cs.dropWhile p)

/-- Attempt the dense-format pattern at this position, returning the four
capture groups and the rest of the input after the match. -/
def reMatchSection (cs : List Char) :
    Option ((String × String × String × String) × List Char) := do
  let cs0 := cs.dropWhile pyIsSpaceChar
  let (g1, cs1) ← munch1 Char.isDigit cs0
  let (_, cs2) ← munch1 pyIsSpaceChar cs1
  let (g2, cs3) ← (match cs2 with
    | '.' :: rest => (munch1 pyIsWordChar rest).map (fun pr => ('.' :: pr.1, pr.2))
    | _ => munch1 pyIsWordChar cs2)
  let (_, cs4) ← munch1 pyIsSpaceChar cs3
  let (g3, cs5) ← munch1 isHexxChar cs4
  let (_, cs6) ← munch1 pyIsSpaceChar cs5
  let (g4, cs7) ← munch1 isHexxChar cs6
  pure ((String.mk g1, String.mk g2, String.mk g3, String.mk g4), cs7)

/-- `re.finditer` scan for the dense pattern: try the pattern at every
line-start position (string start or right after `\n`), emit matches in
first-seen order, resume after each match (a match always consumes at least
one character, so `fuel = length + 1` never runs out). -/
def reFindAll : Nat → List Char → Bool → List (String × String × String × String)
  | 0, _, _ => []
  | _ + 1, [], _ => []
  | fuel + 1, c :: rest, atStart =>
      if atStart then
        match reMatchSection (c :: rest) with
        | some (g, remainder) => g :: reFindAll fuel remainder false
        | none => reFindAll fuel rest (c = '\n')
      else reFindAll fuel rest (c = '\n')

/-- `DumpHeadersAnalyzer._parse_aix_format` (analyzers.py lines 225-244). -/
def parseAixFormat (output : String) : List Json :=
  (reFindAll (output.data.length + 1) output.data true).map (fun g =>
    Json.obj [("index", Json.num (pyIntOfDigits g.1)), ("name", Json.str g.2.1),
      ("size", Json.str g.2.2.1), ("address", Json.str g.2.2.2)])

/-- One iteration of the whitespace-table loop in
`DumpHeadersAnalyzer._parse_output` (analyzers.py lines 181-217); the state
is `(sections, in_section_table)`. -/
def dumpHLineStep (st : List Json × Bool) (rawLine : String) : List Json × Bool :=
  let line := pyStrip rawLine
  if line = "" then st
  else if pyContains line "Idx" && pyContains line "Name" then (st.1, true)
  else if st.2 then
    match pySplitWs line with
    | p0 :: p1 :: rest =>
        if pyIsDigit p0 then
          (st.1 ++ [Json.obj
            ([("index", Json.num (pyIntOfDigits p0)), ("name", Json.str p1)] ++
             (if rest.length ≥ 1 then [("size", Json.str (rest.getD 0 ""))] else []) ++
             (if rest.length ≥ 2 then [("vma", Json.str (rest.getD 1 ""))] else []) ++
             (if rest.length ≥ 3 then [("lma", Json.str (rest.getD 2 ""))] else []) ++
             (if rest.length ≥ 4 then [("file_offset", Json.str (rest.getD 3 ""))]
              else []))], st.2)
        else st
    | _ => st
  else st

/-- `DumpHeadersAnalyzer._parse_output` (analyzers.py lines 175-223): the
whitespace-table pass, then the dense fallback only when it found nothing. -/
def parseDumpHOutput (output : String) : List Json :=
  let st := (pySplitlines output).foldl dumpHLineStep ([], false)
  if st.1.isEmpty then parseAixFormat output else st.1

/-! ## Comparison engine (core.py: `ComparisonEngine`)

`compare` walks the union of analyzer names; per name it classifies
added/removed or dispatches to the analyzer-specific diff when the `data`
dictionaries differ.  Python set iteration order is unspecified, so the
union is modelled as first-seen dedup; only membership is meaningful. -/

/-- The diff entry `{"status": "added"}`. -/
def statusAdded : Json := Json.obj [("status", Json.str "added")]

/-- The diff entry `{"status": "removed"}`. -/
def statusRemoved : Json := Json.obj [("status", Json.str "removed")]

/-- `set(data.get("strings", []))` as computed twice in
`ComparisonEngine._diff_what` (core.py lines 328-329). -/
def whatSet (d : Json) : Except PyErr (List Json) := do
  let l ← pyDictGet d "strings" (Json.arr [])
  let xs ← pyIterList l
  pySet xs

/-- `ComparisonEngine._diff_what` (core.py lines 326-340). -/
def diffWhat (d1 d2 : Json) : Except PyErr (Option Json) := do
  let s1 ← whatSet d1
  let s2 ← whatSet d2
  let added := pySetDiff s2 s1
  let removed := pySetDiff s1 s2
  pure (if added.isEmpty ∧ removed.isEmpty then none
    else some (Json.obj [("added", Json.arr added), ("removed", Json.arr removed),
      ("unchanged", Json.num (pySetInterLen s1 s2))]))

/-- The dict comprehension `{s["name"]: s for s in ...}` of `_diff_sections`:
later sections overwrite earlier ones of the same name.  Non-dict elements
raise as `s["name"]` would; a non-string name leaves the string-keyed dict
model and is likewise modelled as a `TypeError`. -/
def buildSecDictAux : List Json → List (String × Json) → Except PyErr (List (String × Json))
  | [], acc => Except.ok acc
  | s :: rest, acc => do
      let nameJ ← pyDictIndex s "name"
      match nameJ with
      | Json.str nm => buildSecDictAux rest (pyDictInsert acc nm s)
      | _ => Except.error PyErr.typeError

/-- `{s["name"]: s for s in d.get("sections", [])}`. -/
def sectionsDict (d : Json) : Except PyErr (List (String × Json)) := do
  let l ← pyDictGet d "sections" (Json.arr [])
  let xs ← pyIterList l
  buildSecDictAux xs []

/-- Per-name classification in `_diff_sections` (core.py lines 350-359). -/
def secChangeEntry (secs1 secs2 : List (String × Json)) (nm : String) : Option Json :=
  match pyLookup secs1 nm, pyLookup secs2 nm with
  | none, some s2 => some (Json.obj [("status", Json.str "added"), ("new", s2)])
  | some s1, none => some (Json.obj [("status", Json.str "removed"), ("old", s1)])
  | some s1, some s2 =>
      if s1 ≠ s2 then
        some (Json.obj [("status", Json.str "modified"), ("old", s1), ("new", s2)])
      else none
  | none, none => none

/-- The `changes` dict accumulated over the name union in `_diff_sections`. -/
def secChanges (secs1 secs2 : List (String × Json)) (names : List String) :
    List (String × Json) :=
  names.foldl (fun acc nm =>
    match secChangeEntry secs1 secs2 nm with
    | some e => pyDictInsert acc nm e
    | none => acc) []

/-- `ComparisonEngine._diff_sections` (core.py lines 342-361). -/
def diffSections (d1 d2 : Json) : Except PyErr (Option Json) := do
  let secs1 ← sectionsDict d1
  let secs2 ← sectionsDict d2
  let changes := secChanges secs1 secs2
    (pyDedupFirst (secs1.map Prod.fst ++ secs2.map Prod.fst))
  pure (if changes.isEmpty then none else some (Json.obj changes))

/-- `s.get("name", "")` over a symbol list (`_diff_loader`). -/
def getNameDefaults : List Json → Except PyErr (List Json)
  | [] => Except.ok []
  | s :: rest => do
      let nm ← pyDictGet s "name" (Json.str "")
      let ns ← getNameDefaults rest
      pure (nm :: ns)

/-- `set(s.get("name", "") for s in d.get(key, []))` (`_diff_loader`,
core.py lines 365-368). -/
def loaderNames (d : Json) (key : String) : Except PyErr (List Json) := do
  let lJ ← pyDictGet d key (Json.arr [])
  let xs ← pyIterList lJ
  let names ← getNameDefaults xs
  pySet names

/-- `ComparisonEngine._diff_loader` (core.py lines 363-384). -/
def diffLoader (d1 d2 : Json) : Except PyErr (Option Json) := do
  let imp1 ← loaderNames d1 "imports"
  let imp2 ← loaderNames d2 "imports"
  let exp1 ← loaderNames d1 "exports"
  let exp2 ← loaderNames d2 "exports"
  let changes :=
    (if pySetEq imp1 imp2 then [] else
      [("imports", Json.obj [("added", Json.arr (pySetDiff imp2 imp1)),
        ("removed", Json.arr (pySetDiff imp1 imp2))])]) ++
    (if pySetEq exp1 exp2 then [] else
      [("exports", Json.obj [("added", Json.arr (pySetDiff exp2 exp1)),
        ("removed", Json.arr (pySetDiff exp1 exp2))])])
  pure (if changes.isEmpty then none else some (Json.obj changes))

/-- `ComparisonEngine._diff_data` (core.py lines 310-324). -/
def diffData (analyzer : String) (data1 data2 : Json) : Except PyErr (Option Json) :=
  if analyzer = "what" then diffWhat data1 data2
  else if analyzer = "dump-h" then diffSections data1 data2
  else if analyzer = "dump-T" then diffLoader data1 data2
  else
    Except.ok (if data1 ≠ data2 then
      some (Json.obj [("changed", Json.bool true), ("old", data1), ("new", data2)])
    else none)

/-- The per-name outcome of the union loop in `ComparisonEngine.compare`
(core.py lines 284-298): `None` when the name contributes no diff entry.
A name is only looked at when present in at least one snapshot. -/
def compareEntry (snap1 snap2 : Snapshot) (name : String) : Except PyErr (Option Json) :=
  match pyLookup snap1.results name, pyLookup snap2.results name with
  | none, _ => Except.ok (some statusAdded)
  | some _, none => Except.ok (some statusRemoved)
  | some r1, some r2 =>
      if r1.data ≠ r2.data then diffData name r1.data r2.data
      else Except.ok none

/-- The union loop of `ComparisonEngine.compare`: accumulate `(diffs,
has_differences)` over the analyzer-name union. -/
def compareFold (snap1 snap2 : Snapshot) :
    List String → List (String × Json) × Bool →
    Except PyErr (List (String × Json) × Bool)
  | [], acc => Except.ok acc
  | name :: rest, acc => do
      let e ← compareEntry snap1 snap2 name
      match e with
      | some j => compareFold snap1 snap2 rest (pyDictInsert acc.1 name j, true)
      | none => compareFold snap1 snap2 rest acc

/-- Python `len(...)` as used by `_build_summary`. -/
def pyLen (j : Json) : Except PyErr Nat :=
  match j with
  | Json.arr xs => Except.ok xs.length
  | Json.obj es => Except.ok es.length
  | Json.str s => Except.ok s.data.length
  | _ => Except.error PyErr.typeError

/-! Python `repr`/`str` for f-string interpolation in `_build_summary`
(string-escaping inside `repr` is simplified to plain quoting; every value
this program formats there is a short literal string). -/

mutual

def Json.pyRepr : Json → String
  | .str s => "'" ++ s ++ "'"
  | .num n => toString n
  | .bool true => "True"
  | .bool false => "False"
  | .null => "None"
  | .arr xs => "[" ++ Json.pyReprList xs ++ "]"
  | .obj es => "\x7b" ++ Json.pyReprEntries es ++ "\x7d"

def Json.pyReprList : List Json → String
  | [] => ""
  | [x] => Json.pyRepr x
  | x :: rest => Json.pyRepr x ++ ", " ++ Json.pyReprList rest

def Json.pyReprEntries : List (String × Json) → String
  | [] => ""
  | [(k, v)] => "'" ++ k ++ "': " ++ Json.pyRepr v
  | (k, v) :: rest => "'" ++ k ++ "': " ++ Json.pyRepr v ++ ", " ++ Json.pyReprEntries rest

end

/-- Python `str()` (f-string formatting). -/
def Json.pyStr : Json → String
  | .str s => s
  | j => Json.pyRepr j

/-- The fragment loop of `ComparisonEngine._build_summary`
(core.py lines 393-403). -/
def buildSummaryParts : List (String × Json) → Except PyErr (List String)
  | [] => Except.ok []
  | (name, diff) :: rest => do
      let parts ← (if name = "_metadata" then Except.ok ["file size changed"]
        else match diff with
        | Json.obj entries =>
            if (pyLookup entries "added").isSome ∧ (pyLookup entries "removed").isSome
            then do
              let la ← pyLen ((pyLookup entries "added").getD Json.null)
              let lr ← pyLen ((pyLookup entries "removed").getD Json.null)
              Except.ok [name ++ ": +" ++ toString la ++ " -" ++ toString lr]
            else if (pyLookup entries "status").isSome then
              Except.ok [name ++ ": " ++ Json.pyStr ((pyLookup entries "status").getD Json.null)]
            else Except.ok [name ++ ": changed"]
        | _ => Except.ok [])
      let tailParts ← buildSummaryParts rest
      pure (parts ++ tailParts)

/-- `ComparisonEngine._build_summary` (core.py lines 386-405). -/
def buildSummary (diffs : List (String × Json)) : Except PyErr String :=
  if diffs.isEmpty then Except.ok "No differences"
  else do
    let parts ← buildSummaryParts diffs
    pure (if parts.isEmpty then "differences found" else String.intercalate "; " parts)

/-- The file-size metadata step of `ComparisonEngine.compare`
(core.py lines 275-279): the initial `(diffs, has_differences)` state. -/
def metadataStart (snap1 snap2 : Snapshot) : List (String × Json) × Bool :=
  if snap1.file_size ≠ snap2.file_size then
    ([("_metadata", Json.obj [("file_size",
        Json.obj [("old", snap1.file_size), ("new", snap2.file_size)])])], true)
  else ([], false)

/-- `ComparisonEngine.compare` (core.py lines 269-308). -/
def compareSnapshots (snap1 snap2 : Snapshot) : Except PyErr ComparisonResult := do
  let st ← compareFold snap1 snap2
    (pyDedupFirst (snap1.results.map Prod.fst ++ snap2.results.map Prod.fst))
    (metadataStart snap1 snap2)
  let summary ← buildSummary st.1
  pure (ComparisonResult.mk snap1.filepath snap2.filepath st.2 summary st.1)

/-! ## Concrete inputs used by the witness theorems -/

/-- A concrete one-result snapshot (store/load round-trip input). -/
def c3Snap : Snapshot :=
  Snapshot.mk (Json.str "/usr/lib/x.o") (Json.str "2024-01-01T00:00:00")
    (Json.num 1024) (Json.str "2024-01-01T00:00:00") (Json.str "xcoff32") Json.null
    [("what", AnalysisResult.mk (Json.str "what") (Json.bool true)
      (Json.obj [("strings", Json.arr [Json.str "v1.0"]), ("count", Json.num 1)])
      Json.null (Json.bool false))]

/-- C6 witness input: a 20-byte header with magic `0x01DF`, one section and a
symbol-table offset of 100 (> 20 bytes of file). -/
def c6Content : List Nat :=
  [1, 223, 0, 1, 0, 0, 0, 0, 0, 0, 0, 100, 0, 0, 0, 2, 0, 0, 0, 0]

/-- C9 witness oracle: `what` exits 1 but still prints one line. -/
def c9Run : List String → Completed := fun cmd =>
  if cmd = ["what", "/a.o"] then Completed.mk 1 "x.c 1.5 2024/01/15\n" "noise"
  else Completed.mk 0 "" ""

/-- C1 counterexample oracle: verbose `dump -Tv` fails, plain `dump -T`
would succeed. -/
def c1Run : List String → Completed := fun cmd =>
  if cmd = ["dump", "-Tv", "/a.o"] then Completed.mk 1 "" "dump: 0654-108 invalid flag"
  else Completed.mk 0 "[1] 0x10000128 .text EXP DS SECdef [noIMid] main\n" ""

/-- C5 witness inputs: snapshots of equal size differing in the `what`
strings, with `dump-T` present only in the second. -/
def c5SnapA : Snapshot :=
  Snapshot.mk (Json.str "/a") (Json.str "t1") (Json.num 10) (Json.str "m1")
    (Json.str "xcoff32") Json.null
    [("what", AnalysisResult.mk (Json.str "what") (Json.bool true)
      (Json.obj [("strings", Json.arr [Json.str "u", Json.str "v"]),
        ("count", Json.num 2)]) Json.null (Json.bool false))]

def c5SnapB : Snapshot :=
  Snapshot.mk (Json.str "/b") (Json.str "t2") (Json.num 10) (Json.str "m2")
    (Json.str "xcoff32") Json.null
    [("what", AnalysisResult.mk (Json.str "what") (Json.bool true)
      (Json.obj [("strings", Json.arr [Json.str "u", Json.str "w"]),
        ("count", Json.num 2)]) Json.null (Json.bool false)),
     ("dump-T", AnalysisResult.mk (Json.str "dump-T") (Json.bool true)
      (Json.obj [("imports", Json.arr []), ("exports", Json.arr [])])
      Json.null (Json.bool false))]

def c5ResAB : ComparisonResult :=
  ComparisonResult.mk (Json.str "/a") (Json.str "/b") true "what: +1 -1; dump-T: added"
    [("what", Json.obj [("added", Json.arr [Json.str "w"]),
        ("removed", Json.arr [Json.str "v"]), ("unchanged", Json.num 1)]),
     ("dump-T", statusAdded)]

def c5ResBA : ComparisonResult :=
  ComparisonResult.mk (Json.str "/b") (Json.str "/a") true "what: +1 -1; dump-T: removed"
    [("what", Json.obj [("added", Json.arr [Json.str "v"]),
        ("removed", Json.arr [Json.str "w"]), ("unchanged", Json.num 1)]),
     ("dump-T", statusRemoved)]

/-- The `results` value of a persisted record, if present, is an object whose
entries are objects (so the `from_dict` results loop cannot raise
`AttributeError`). -/
def resultsEntriesOk (entries : List (String × Json)) : Prop :=
  match pyLookup entries "results" with
  | none => True
  | some (Json.obj rs) => ∀ kv ∈ rs, ∃ res, kv.2 = Json.obj res
  | some _ => False

/-- One of the four required snapshot keys is absent. -/
def missingRequiredKey (entries : List (String × Json)) : Prop :=
  pyLookup entries "filepath" = none ∨ pyLookup entries "timestamp" = none ∨
  pyLookup entries "file_size" = none ∨ pyLookup entries "file_mtime" = none

/-! ## Shared lemmas -/

theorem exceptBind_ok {e a b : Type} (x : a) (f : a → Except e b) :
    (Except.ok x : Except e a) >>= f = f x := rfl

theorem exceptBind_error {e a b : Type} (err : e) (f : a → Except e b) :
    (Except.error err : Except e a) >>= f = Except.error err := rfl

theorem storeLookup_storeWrite_self (fs : SnapStore) (key : String × String)
    (v : FileContent) : storeLookup (storeWrite fs key v) key = some v := by
  induction fs with
  | nil => simp [storeWrite, storeLookup]
  | cons kv rest ih =>
    by_cases h : kv.1 = key
    · obtain ⟨k, v0⟩ := kv
      simp only [Prod.fst] at h
      simp [storeWrite, storeLookup, h]
    · obtain ⟨k, v0⟩ := kv
      simp only [Prod.fst] at h
      simp [storeWrite, storeLookup, h, ih]

theorem fromDictResults_toDict (l : List (String × AnalysisResult)) :
    fromDictResults
      (l.map (fun kv =>
        (kv.1, Json.obj
          [("success", kv.2.success), ("data", kv.2.data),
           ("error", kv.2.error), ("truncated", kv.2.truncated)]))) =
    Except.ok (l.map (fun kv =>
      (kv.1, AnalysisResult.mk (Json.str kv.1) kv.2.success kv.2.data kv.2.error
        kv.2.truncated))) := by
  induction l with
  | nil => rfl
  | cons kv rest ih =>
    simp only [List.map_cons, fromDictResults, ih]
    simp [fromDictResult, pyDictGet, pyLookup]
    rfl

theorem fromDict_toDict (s : Snapshot) :
    Snapshot.fromDict s.toDict =
      Except.ok
        (Snapshot.mk s.filepath s.timestamp s.file_size s.file_mtime s.file_type s.name
          (s.results.map (fun kv =>
            (kv.1, AnalysisResult.mk (Json.str kv.1) kv.2.success kv.2.data kv.2.error
              kv.2.truncated)))) := by
  simp only [Snapshot.fromDict, Snapshot.toDict, pyDictGet, pyDictIndex, pyItems,
    pyLookup, exceptBind_ok, fromDictResults_toDict, String.reduceEq, reduceIte,
    Option.getD_some]
  rfl

/-! ## C2: the Store path mapping does not round-trip -/

/-- C2: the claim "for every POSIX-style absolute filepath the mapping
relpath-of-filepath / filepath-of-relpath round-trips to the identity" is
false at the concrete path `/usr/bin/ls` (the very example in the source's
comments): `rstrip(".json")` strips the character set `.json`, eating the
trailing `s` of `ls`, so the round-trip returns `/usr/bin/l`. -/
theorem c2_path_roundtrip_bug :
    filepathToRelpath "/usr/bin/ls" = "usr/bin/ls.json" ∧
    relpathToFilepath (filepathToRelpath "/usr/bin/ls") = "/usr/bin/l" ∧
    relpathToFilepath (filepathToRelpath "/usr/bin/ls") ≠ "/usr/bin/ls" := by
  refine ⟨by decide, by decide, by decide⟩

/-! ## C3: store/load round-trip preserves the results mapping -/

/-- C3: for every snapshot whose `filepath` is a string and whose results
dictionary satisfies the data-model invariant (each result's `analyzer_name`
equals its key, as every snapshot built by `SnapshotManager.capture` or
`Snapshot.from_dict` does) and which has at least one analyzer result,
`load(name, filepath)` after `store(name, snapshot)` returns a snapshot whose
`results` mapping equals the original key-for-key and field-for-field. -/
theorem c3_store_load_roundtrip (fs : SnapStore) (name p : String) (snap : Snapshot)
    (hfp : snap.filepath = Json.str p)
    (hnames : ∀ kv ∈ snap.results, kv.2.analyzer_name = Json.str kv.1)
    (_hne : snap.results ≠ []) :
    ∃ fs2 snap2 loaded,
      storeSnapshot fs name snap = Except.ok (fs2, snap2) ∧
      loadSnapshot fs2 name p = Except.ok (some loaded) ∧
      loaded.results = snap.results := by
  have hmap : ∀ l : List (String × AnalysisResult),
      (∀ kv ∈ l, kv.2.analyzer_name = Json.str kv.1) →
      l.map (fun kv =>
        (kv.1, AnalysisResult.mk (Json.str kv.1) kv.2.success kv.2.data kv.2.error
          kv.2.truncated)) = l := by
    intro l hl
    induction l with
    | nil => rfl
    | cons kv rest ih =>
      have h1 := hl kv (by simp)
      obtain ⟨k, r⟩ := kv
      obtain ⟨an, su, da, er, tr⟩ := r
      simp only [Prod.snd, AnalysisResult.analyzer_name, Prod.fst] at h1
      simp [List.map_cons, ih (fun z hz => hl z (by simp [hz])), h1]
  refine ⟨storeWrite fs (name, filepathToRelpath p)
      (FileContent.jsonFile ({ snap with name := Json.str name } : Snapshot).toDict),
    { snap with name := Json.str name },
    Snapshot.mk snap.filepath snap.timestamp snap.file_size snap.file_mtime
      snap.file_type (Json.str name)
      (snap.results.map (fun kv =>
        (kv.1, AnalysisResult.mk (Json.str kv.1) kv.2.success kv.2.data kv.2.error
          kv.2.truncated))),
    ?_, ?_, ?_⟩
  · simp only [storeSnapshot, hfp, exceptBind_ok]
  · simp only [loadSnapshot, storeLookup_storeWrite_self, fromDict_toDict]
  · simpa using hmap snap.results hnames

theorem c3_store_load_roundtrip_witness :
    c3Snap.filepath = Json.str "/usr/lib/x.o" ∧
    c3Snap.results ≠ [] ∧
    ∃ fs2 snap2 loaded,
      storeSnapshot [] "base" c3Snap = Except.ok (fs2, snap2) ∧
      loadSnapshot fs2 "base" "/usr/lib/x.o" = Except.ok (some loaded) ∧
      loaded.results = c3Snap.results :=
  ⟨by decide, by decide,
    c3_store_load_roundtrip [] "base" "/usr/lib/x.o" c3Snap (by decide)
      (by decide) (by decide)⟩

/-! ## C8: load of a malformed record -/

/-- C8 counterexample: the stored record `[]` (a JSON array) is valid JSON
lacking every required snapshot field, yet `load` does not return `none`:
`from_dict` calls `.get` on the list, raising an `AttributeError` that
`load` does not catch (it only catches `json.JSONDecodeError` and
`KeyError`), contradicting "never raises an exception to the caller". -/
theorem c8_load_malformed_counterexample :
    loadSnapshot [(("snap", "a.o.json"), FileContent.jsonFile (Json.arr []))]
      "snap" "/a.o" = Except.error PyErr.attributeError := by
  decide

theorem fromDictResults_allObj (rs : List (String × Json))
    (h : ∀ kv ∈ rs, ∃ res, kv.2 = Json.obj res) :
    ∃ l, fromDictResults rs = Except.ok l := by
  induction rs with
  | nil => exact ⟨[], rfl⟩
  | cons kv rest ih =>
    obtain ⟨res, hres⟩ := h kv (by simp)
    obtain ⟨l, hl⟩ := ih (fun z hz => h z (by simp [hz]))
    refine ⟨(kv.1, AnalysisResult.mk (Json.str kv.1)
        ((pyLookup res "success").getD (Json.bool false))
        ((pyLookup res "data").getD (Json.obj []))
        ((pyLookup res "error").getD Json.null)
        ((pyLookup res "truncated").getD (Json.bool false))) :: l, ?_⟩
    simp [fromDictResults, fromDictResult, hres, pyDictGet, exceptBind_ok, hl]

/-- C8 amended: `load` returns `none` without raising when the record is
absent, when its content is not valid JSON, and when it is a JSON *object*
lacking a required snapshot field (provided its `results` value and entries
are objects); but when the parsed JSON is not an object (or a `results`
entry is not), the resulting `AttributeError` propagates to the caller
(see the counterexample). -/
theorem c8_load_malformed_amended (fs : SnapStore) (name fp : String) :
    (storeLookup fs (name, filepathToRelpath fp) = none →
      loadSnapshot fs name fp = Except.ok none) ∧
    (∀ s, storeLookup fs (name, filepathToRelpath fp) = some (FileContent.rawFile s) →
      loadSnapshot fs name fp = Except.ok none) ∧
    (∀ entries,
      storeLookup fs (name, filepathToRelpath fp) =
        some (FileContent.jsonFile (Json.obj entries)) →
      resultsEntriesOk entries → missingRequiredKey entries →
      loadSnapshot fs name fp = Except.ok none) := by
  refine ⟨fun h => by simp [loadSnapshot, h], fun s h => by simp [loadSnapshot, h], ?_⟩
  intro entries hlook hres hmiss
  have hfd : Snapshot.fromDict (Json.obj entries) = Except.error PyErr.keyError := by
    have hresults : ∃ l, (do
        let resultsJ ← pyDictGet (Json.obj entries) "results" (Json.obj [])
        let rentries ← pyItems resultsJ
        fromDictResults rentries) = Except.ok l := by
      simp only [pyDictGet]
      cases hr : pyLookup entries "results" with
      | none =>
        simp only [exceptBind_ok, Option.getD_none, pyItems]
        exact ⟨[], rfl⟩
      | some v =>
        unfold resultsEntriesOk at hres
        rw [hr] at hres
        cases v with
        | obj rs =>
          simp only [exceptBind_ok, Option.getD_some, pyItems]
          exact fromDictResults_allObj rs hres
        | null => exact absurd hres (by simp)
        | bool b => exact absurd hres (by simp)
        | num n => exact absurd hres (by simp)
        | str s => exact absurd hres (by simp)
        | arr xs => exact absurd hres (by simp)
    obtain ⟨l, hl⟩ := hresults
    unfold Snapshot.fromDict
    rw [show (do
        let resultsJ ← pyDictGet (Json.obj entries) "results" (Json.obj [])
        let rentries ← pyItems resultsJ
        let results ← fromDictResults rentries
        let filepath ← pyDictIndex (Json.obj entries) "filepath"
        let timestamp ← pyDictIndex (Json.obj entries) "timestamp"
        let fileSize ← pyDictIndex (Json.obj entries) "file_size"
        let fileMtime ← pyDictIndex (Json.obj entries) "file_mtime"
        let fileType ← pyDictGet (Json.obj entries) "file_type" (Json.str "unknown")
        let nameV ← pyDictGet (Json.obj entries) "name" Json.null
        pure (Snapshot.mk filepath timestamp fileSize fileMtime fileType nameV results) :
          Except PyErr Snapshot) =
        (do
        let results ← (do
          let resultsJ ← pyDictGet (Json.obj entries) "results" (Json.obj [])
          let rentries ← pyItems resultsJ
          fromDictResults rentries)
        let filepath ← pyDictIndex (Json.obj entries) "filepath"
        let timestamp ← pyDictIndex (Json.obj entries) "timestamp"
        let fileSize ← pyDictIndex (Json.obj entries) "file_size"
        let fileMtime ← pyDictIndex (Json.obj entries) "file_mtime"
        let fileType ← pyDictGet (Json.obj entries) "file_type" (Json.str "unknown")
        let nameV ← pyDictGet (Json.obj entries) "name" Json.null
        pure (Snapshot.mk filepath timestamp fileSize fileMtime fileType nameV results) :
          Except PyErr Snapshot) from by simp [bind_assoc]]
    rw [hl, exceptBind_ok]
    rcases hmiss with hm | hm | hm | hm
    · simp [pyDictIndex, hm, exceptBind_error]
    · cases h1 : pyLookup entries "filepath" <;>
        simp [pyDictIndex, h1, hm, exceptBind_error, exceptBind_ok]
    · cases h1 : pyLookup entries "filepath" <;>
        cases h2 : pyLookup entries "timestamp" <;>
        simp [pyDictIndex, h1, h2, hm, exceptBind_error, exceptBind_ok]
    · cases h1 : pyLookup entries "filepath" <;>
        cases h2 : pyLookup entries "timestamp" <;>
        cases h3 : pyLookup entries "file_size" <;>
        simp [pyDictIndex, h1, h2, h3, hm, exceptBind_error, exceptBind_ok]
  simp [loadSnapshot, hlook, hfd]

/-- C8 amended witness: a record holding a JSON object that lacks
`filepath` loads as `none`. -/
theorem c8_load_malformed_amended_witness :
    loadSnapshot [(("snap", "a.o.json"),
        FileContent.jsonFile (Json.obj [("results", Json.obj [])]))]
      "snap" "/a.o" = Except.ok none :=
  (c8_load_malformed_amended
      [(("snap", "a.o.json"), FileContent.jsonFile (Json.obj [("results", Json.obj [])]))]
      "snap" "/a.o").2.2 [("results", Json.obj [])] (by decide)
    (by simp [resultsEntriesOk, pyLookup]) (by simp [missingRequiredKey, pyLookup])

/-! ## C6: validator rejects a symbol-table offset beyond the file size -/

theorem getD_take_of_lt (l : List Nat) (m i d : Nat) (h : i < m) :
    (l.take m).getD i d = l.getD i d := by
  simp [List.getD, List.getElem?_take, h]

/-- C6: for every file of at least 20 bytes whose first two big-endian bytes
are the first known magic `0x01DF` and whose decoded symbol-table offset
exceeds the file size, `validate` returns `valid = false`, an `error` that is
the join of the structural-error list containing the symbol-table-offset
complaint, and `details` still carries all seven decoded header fields. -/
theorem c6_validate_symptr_beyond_file_size (content : List Nat)
    (h20 : 20 ≤ content.length)
    (hb0 : content.getD 0 0 = 1) (hb1 : content.getD 1 0 = 223)
    (hsym : be32 (content.take 20) 8 > content.length) :
    (validate content).valid = false ∧
    "Symbol table offset beyond file size" ∈
      xcoffErrors (be16 (content.take 20) 2) (be32 (content.take 20) 8)
        (be16 (content.take 20) 16) content.length ∧
    (validate content).error =
      some (String.intercalate "; "
        (xcoffErrors (be16 (content.take 20) 2) (be32 (content.take 20) 8)
          (be16 (content.take 20) 16) content.length)) ∧
    pyLookup (validate content).details "magic" =
      some (Json.str ("0x" ++ hex4 (be16 (content.take 20) 0))) ∧
    pyLookup (validate content).details "sections" =
      some (Json.num (be16 (content.take 20) 2)) ∧
    pyLookup (validate content).details "timestamp" =
      some (Json.num (be32 (content.take 20) 4)) ∧
    pyLookup (validate content).details "symbol_table_offset" =
      some (Json.num (be32 (content.take 20) 8)) ∧
    pyLookup (validate content).details "symbol_count" =
      some (Json.num (be32 (content.take 20) 12)) ∧
    pyLookup (validate content).details "optional_header_size" =
      some (Json.num (be16 (content.take 20) 16)) ∧
    pyLookup (validate content).details "flags" =
      some (Json.str ("0x" ++ hex4 (be16 (content.take 20) 18))) := by
  have hmagic : be16 (content.take 20) 0 = MAGIC_32 := by
    unfold be16 MAGIC_32
    rw [getD_take_of_lt _ _ _ _ (by omega), getD_take_of_lt _ _ _ _ (by omega), hb0, hb1]
  have hnotar : ¬ ((content.take 20).take 8 = arMagic) := by
    intro heq
    have h0 : ((content.take 20).take 8).getD 0 0 = 33 := by rw [heq]; rfl
    rw [getD_take_of_lt _ _ _ _ (by omega), getD_take_of_lt _ _ _ _ (by omega), hb0] at h0
    exact absurd h0 (by decide)
  have hpos : be32 (content.take 20) 8 > 0 := by omega
  have hmem : "Symbol table offset beyond file size" ∈
      xcoffErrors (be16 (content.take 20) 2) (be32 (content.take 20) 8)
        (be16 (content.take 20) 16) content.length := by
    simp only [xcoffErrors, List.mem_append]
    exact Or.inl (Or.inr (by rw [if_pos ⟨hpos, hsym⟩]; exact List.mem_singleton_self _))
  have hval : validate content = validateXcoff (content.take 20) content.length "xcoff32" := by
    unfold validate
    rw [if_neg (by omega), if_neg hnotar, if_pos hmagic]
  have hne : (xcoffErrors (be16 (content.take 20) 2) (be32 (content.take 20) 8)
      (be16 (content.take 20) 16) content.length).isEmpty = false := by
    cases hE : xcoffErrors (be16 (content.take 20) 2) (be32 (content.take 20) 8)
        (be16 (content.take 20) 16) content.length with
    | nil => rw [hE] at hmem; simp at hmem
    | cons a l => rfl
  have hcond : ¬ ((xcoffErrors (be16 (content.take 20) 2) (be32 (content.take 20) 8)
      (be16 (content.take 20) 16) content.length).isEmpty = true) := by
    rw [hne]; exact Bool.false_ne_true
  rw [hval]
  simp only [validateXcoff]
  rw [if_neg hcond]
  refine ⟨rfl, hmem, rfl, ?_, ?_, ?_, ?_, ?_, ?_, ?_⟩ <;> rfl

theorem c6_validate_symptr_beyond_file_size_witness :
    20 ≤ c6Content.length ∧ be32 (c6Content.take 20) 8 > c6Content.length ∧
    (validate c6Content).valid = false ∧
    (validate c6Content).error = some "Symbol table offset beyond file size" ∧
    pyLookup (validate c6Content).details "symbol_table_offset" =
      some (Json.num 100) := by
  have h := c6_validate_symptr_beyond_file_size c6Content (by decide) (by decide)
    (by decide) (by decide)
  refine ⟨by decide, by decide, h.1, ?_, ?_⟩
  · rw [h.2.2.1]; decide
  · rw [h.2.2.2.2.2.2.1]; decide

/-! ## C9: identification-string analyzer succeeds whenever stdout is non-empty -/

/-- C9: the `what` analyzer produces a failed result exactly when the
command exits non-zero AND stdout is empty; in every other case — in
particular a non-zero exit with non-empty stdout — it succeeds with the
parsed strings and their count in `data`. -/
theorem c9_what_failure_iff_empty_stdout (run : List String → Completed)
    (filepath : String) :
    ((whatAnalyze run filepath).success = Json.bool false ↔
      ((run ["what", filepath]).returncode ≠ 0 ∧
        (run ["what", filepath]).stdout = "")) ∧
    ((run ["what", filepath]).returncode ≠ 0 →
      (run ["what", filepath]).stdout ≠ "" →
      (whatAnalyze run filepath).success = Json.bool true ∧
      (whatAnalyze run filepath).data =
        Json.obj
          [("strings",
            Json.arr ((parseWhatOutput (run ["what", filepath]).stdout).map Json.str)),
           ("count",
            Json.num (parseWhatOutput (run ["what", filepath]).stdout).length)]) := by
  constructor
  · by_cases hc : (run ["what", filepath]).returncode ≠ 0 ∧
        (run ["what", filepath]).stdout = ""
    · simp only [whatAnalyze]
      rw [if_pos hc]
      simp [hc]
    · simp only [whatAnalyze]
      rw [if_neg hc]
      simp [hc]
  · intro hrc hout
    simp only [whatAnalyze]
    rw [if_neg (fun hand => hout hand.2)]
    exact ⟨rfl, rfl⟩

theorem c9_what_failure_iff_empty_stdout_witness :
    (c9Run ["what", "/a.o"]).returncode ≠ 0 ∧
    (c9Run ["what", "/a.o"]).stdout ≠ "" ∧
    (whatAnalyze c9Run "/a.o").success = Json.bool true :=
  ⟨by decide, by decide,
    ((c9_what_failure_iff_empty_stdout c9Run "/a.o").2 (by decide) (by decide)).1⟩

/-! ## C10: loader-symbol parser drops every line with fewer than 4 tokens -/

theorem parseLoaderLine_short (acc : List Json × List Json) (line : String)
    (h : (pySplitWs (pyStrip line)).length < 4) :
    parseLoaderLine acc line = acc := by
  simp only [parseLoaderLine]
  by_cases h0 : pyStrip line = ""
  · simp [h0]
  · simp only [h0, if_neg, if_false]
    rw [if_pos h]

/-- C10: a loader-symbol-dump output line whose whitespace split has fewer
than 4 tokens contributes to neither `data.imports` nor `data.exports` —
inserting such a line anywhere in the output leaves the parse unchanged,
marker substrings ("IMP", "EXTref", "EXP", "SECdef") notwithstanding. -/
theorem c10_loader_short_line_ignored (pre post : List String) (line : String)
    (hshort : (pySplitWs (pyStrip line)).length < 4) :
    loaderParseLines (pre ++ line :: post) = loaderParseLines (pre ++ post) := by
  unfold loaderParseLines
  rw [List.foldl_append, List.foldl_cons, parseLoaderLine_short _ _ hshort,
    ← List.foldl_append]

/-- C10 witness: a 3-token line containing the import marker "IMP" changes
nothing, even between real import/export lines. -/
theorem c10_loader_short_line_ignored_witness :
    (pySplitWs (pyStrip "foo IMP bar")).length < 4 ∧
    loaderParseLines
      (["[0] 0x00000000 undef IMP DS EXTref libc.a(shr.o) printf"] ++
        "foo IMP bar" :: ["[1] 0x10000128 .text EXP DS SECdef [noIMid] main"]) =
    loaderParseLines
      (["[0] 0x00000000 undef IMP DS EXTref libc.a(shr.o) printf"] ++
        ["[1] 0x10000128 .text EXP DS SECdef [noIMid] main"]) :=
  ⟨by decide,
    c10_loader_short_line_ignored
      ["[0] 0x00000000 undef IMP DS EXTref libc.a(shr.o) printf"]
      ["[1] 0x10000128 .text EXP DS SECdef [noIMid] main"]
      "foo IMP bar" (by decide)⟩

/-! ## C1: the loader analyzer does not retry without the verbose flag -/

/-- C1 counterexample: the claim "on a non-zero verbose exit the command is
retried once without the verbose flag, and the analyzer fails only if the
retry also fails" is false: here the verbose run exits 1, the non-verbose
run would exit 0, yet `analyze` returns a failed result — the code
(analyzers.py lines 265-273) returns failure immediately without any retry. -/
theorem c1_loader_retry_counterexample :
    (c1Run ["dump", "-Tv", "/a.o"]).returncode ≠ 0 ∧
    (c1Run ["dump", "-T", "/a.o"]).returncode = 0 ∧
    (dumpLoaderAnalyze c1Run "/a.o").success = Json.bool false := by
  refine ⟨by decide, by decide, by decide⟩

/-- C1 amended: on a non-zero exit of the verbose loader-symbol-dump command
the analyzer immediately returns a failed result whose error is the stripped
stderr (or an exit-code message), with no retry: the outcome depends only on
the `dump -Tv` invocation, so no second command is consulted. -/
theorem c1_loader_no_retry (run run2 : List String → Completed) (p : String)
    (hrc : (run ["dump", "-Tv", p]).returncode ≠ 0) :
    (dumpLoaderAnalyze run p).success = Json.bool false ∧
    (dumpLoaderAnalyze run p).error =
      Json.str (strOrExitCode (run ["dump", "-Tv", p]).stderr
        (run ["dump", "-Tv", p]).returncode) ∧
    (run2 ["dump", "-Tv", p] = run ["dump", "-Tv", p] →
      dumpLoaderAnalyze run2 p = dumpLoaderAnalyze run p) := by
  refine ⟨?_, ?_, ?_⟩
  · simp only [dumpLoaderAnalyze]
    rw [if_pos hrc]
  · simp only [dumpLoaderAnalyze]
    rw [if_pos hrc]
  · intro heq
    simp only [dumpLoaderAnalyze, heq]

theorem c1_loader_no_retry_witness :
    (c1Run ["dump", "-Tv", "/a.o"]).returncode ≠ 0 ∧
    (dumpLoaderAnalyze c1Run "/a.o").error = Json.str "dump: 0654-108 invalid flag" := by
  have h := c1_loader_no_retry c1Run c1Run "/a.o" (by decide)
  refine ⟨by decide, ?_⟩
  rw [h.2.1]; decide

/-! ## C7: with no "Idx"/"Name" header row, the dense fallback decides -/

theorem dumpHLineStep_no_header (l : String)
    (h : ¬ (pyContains (pyStrip l) "Idx" = true ∧ pyContains (pyStrip l) "Name" = true)) :
    dumpHLineStep ([], false) l = ([], false) := by
  simp only [dumpHLineStep]
  by_cases h0 : pyStrip l = ""
  · simp [h0]
  · rw [if_neg h0, if_neg (by
      intro hb
      exact h ⟨(Bool.and_eq_true _ _).mp hb |>.1, (Bool.and_eq_true _ _).mp hb |>.2⟩)]
    simp

theorem dumpH_table_pass_empty (lines : List String)
    (h : ∀ l ∈ lines,
      ¬ (pyContains (pyStrip l) "Idx" = true ∧ pyContains (pyStrip l) "Name" = true)) :
    lines.foldl dumpHLineStep ([], false) = ([], false) := by
  induction lines with
  | nil => rfl
  | cons l rest ih =>
    rw [List.foldl_cons, dumpHLineStep_no_header l (h l (by simp))]
    exact ih (fun z hz => h z (by simp [hz]))

/-- C7: when no output line contains both "Idx" and "Name", the
whitespace-table pass recovers nothing and the parsed sections are exactly
the matches of the dense fallback pattern over the entire raw output, in
first-seen match order, with no de-duplication. -/
theorem c7_dense_fallback_exact (output : String)
    (hnohdr : ∀ l ∈ pySplitlines output,
      ¬ (pyContains (pyStrip l) "Idx" = true ∧ pyContains (pyStrip l) "Name" = true)) :
    parseDumpHOutput output =
      (reFindAll (output.data.length + 1) output.data true).map (fun g =>
        Json.obj [("index", Json.num (pyIntOfDigits g.1)), ("name", Json.str g.2.1),
          ("size", Json.str g.2.2.1), ("address", Json.str g.2.2.2)]) := by
  unfold parseDumpHOutput
  rw [dumpH_table_pass_empty (pySplitlines output) hnohdr]
  rfl

/-- C7 witness: a pure dense-layout output (no header row) parses to exactly
the two regex matches in order. -/
theorem c7_dense_fallback_exact_witness :
    (∀ l ∈ pySplitlines "0 .text 100 1000\n1 .data 80 2000",
      ¬ (pyContains (pyStrip l) "Idx" = true ∧ pyContains (pyStrip l) "Name" = true)) ∧
    parseDumpHOutput "0 .text 100 1000\n1 .data 80 2000" =
      (reFindAll ("0 .text 100 1000\n1 .data 80 2000".data.length + 1)
        "0 .text 100 1000\n1 .data 80 2000".data true).map (fun g =>
        Json.obj [("index", Json.num (pyIntOfDigits g.1)), ("name", Json.str g.2.1),
          ("size", Json.str g.2.2.1), ("address", Json.str g.2.2.2)]) ∧
    parseDumpHOutput "0 .text 100 1000\n1 .data 80 2000" =
      [Json.obj [("index", Json.num 0), ("name", Json.str ".text"),
        ("size", Json.str "100"), ("address", Json.str "1000")],
       Json.obj [("index", Json.num 1), ("name", Json.str ".data"),
        ("size", Json.str "80"), ("address", Json.str "2000")]] :=
  ⟨by decide, c7_dense_fallback_exact "0 .text 100 1000\n1 .data 80 2000" (by decide),
    by decide⟩

/-! ## C4: comparing a snapshot with itself -/

theorem pyLookup_isSome_of_mem_keys {β : Type} (l : List (String × β)) (k : String)
    (h : k ∈ l.map Prod.fst) : (pyLookup l k).isSome := by
  induction l with
  | nil => simp at h
  | cons kv rest ih =>
    by_cases hk : kv.1 = k
    · simp [pyLookup, hk]
    · simp only [List.map_cons, List.mem_cons] at h
      rcases h with h | h
    
      · exact absurd h.symm hk
      · simp only [pyLookup, if_neg hk]
        exact ih h

theorem pyDedupFirstAux_subset {β : Type} [DecidableEq β] (l : List β) :
    ∀ (seen : List β) (x : β), x ∈ pyDedupFirstAux l seen → x ∈ l := by
  induction l with
  | nil => intro seen x hx; simp [pyDedupFirstAux] at hx
  | cons y rest ih =>
    intro seen x hx
    simp only [pyDedupFirstAux] at hx
    by_cases hy : y ∈ seen
    · rw [if_pos hy] at hx
      exact List.mem_cons_of_mem _ (ih seen x hx)
    · rw [if_neg hy] at hx
      rcases List.mem_cons.mp hx with h | h
      · simp [h]
      · exact List.mem_cons_of_mem _ (ih (y :: seen) x h)

theorem pyDedupFirst_subset {β : Type} [DecidableEq β] (l : List β) (x : β)
    (h : x ∈ pyDedupFirst l) : x ∈ l :=
  pyDedupFirstAux_subset l [] x h

/-- C4: comparing any snapshot with itself yields no differences: the
comparison succeeds with `has_differences = false`, an empty
`analyzer_diffs` map, and summary `"No differences"`. -/
theorem c4_compare_self (S : Snapshot) :
    compareSnapshots S S =
      Except.ok (ComparisonResult.mk S.filepath S.filepath false "No differences" []) := by
  have hfold : ∀ names, (∀ n ∈ names, n ∈ S.results.map Prod.fst) →
      compareFold S S names ([], false) = Except.ok ([], false) := by
    intro names
    induction names with
    | nil => intro _; rfl
    | cons n rest ih =>
      intro h
      have hs := pyLookup_isSome_of_mem_keys S.results n (h n (by simp))
      obtain ⟨r, hr⟩ : ∃ r, pyLookup S.results n = some r := by
        cases hh : pyLookup S.results n
        · rw [hh] at hs; simp at hs
        · exact ⟨_, rfl⟩
      have hentry : compareEntry S S n = Except.ok none := by
        unfold compareEntry
        rw [hr]
        exact if_neg (fun hne => hne rfl)
      simp only [compareFold, hentry, exceptBind_ok]
      exact ih (fun z hz => h z (by simp [hz]))
  have hF := hfold (pyDedupFirst (S.results.map Prod.fst ++ S.results.map Prod.fst))
    (fun n hn => by
      rcases List.mem_append.mp (pyDedupFirst_subset _ n hn) with h | h <;> exact h)
  have hstart : metadataStart S S = ([], false) := by
    unfold metadataStart
    rw [if_neg (fun hne => hne rfl)]
  unfold compareSnapshots
  rw [hstart]
  simp only [hF, exceptBind_ok]
  rfl

/-! ## C5: symmetry of the detected diff set -/

theorem pyLookup_pyDictInsert_self {β : Type} (d : List (String × β)) (k : String) (v : β) :
    pyLookup (pyDictInsert d k v) k = some v := by
  induction d with
  | nil => simp [pyDictInsert, pyLookup]
  | cons kv rest ih =>
    by_cases hk : kv.1 = k
    · obtain ⟨k0, v0⟩ := kv
      simp only [Prod.fst] at hk
      simp [pyDictInsert, pyLookup, hk]
    · obtain ⟨k0, v0⟩ := kv
      simp only [Prod.fst] at hk
      simp [pyDictInsert, pyLookup, hk, ih]

theorem pyLookup_pyDictInsert_ne {β : Type} (d : List (String × β)) (k : String) (v : β)
    (k' : String) (h : k' ≠ k) :
    pyLookup (pyDictInsert d k v) k' = pyLookup d k' := by
  have hne : ¬ k = k' := fun hh => h hh.symm
  induction d with
  | nil => simp [pyDictInsert, pyLookup, hne]
  | cons kv rest ih =>
    obtain ⟨k0, v0⟩ := kv
    by_cases hk : k0 = k
    · subst hk
      simp only [pyDictInsert, if_pos rfl]
      simp [pyLookup, hne]
    · simp only [pyDictInsert, if_neg hk]
      by_cases hk2 : k0 = k'
      · simp [pyLookup, hk2]
      · simp [pyLookup, hk2, ih]

theorem pyDictInsert_ne_nil {β : Type} (d : List (String × β)) (k : String) (v : β) :
    pyDictInsert d k v ≠ [] := by
  cases d with
  | nil => simp [pyDictInsert]
  | cons kv rest =>
    simp only [pyDictInsert]
    split <;> simp

theorem mem_pyDictInsert {β : Type} (d : List (String × β)) (k : String) (v : β)
    (x : String × β) (h : x ∈ pyDictInsert d k v) : x ∈ d ∨ x.2 = v := by
  induction d with
  | nil =>
    simp [pyDictInsert] at h
    simp [h]
  | cons kv rest ih =>
    obtain ⟨k0, v0⟩ := kv
    simp only [pyDictInsert] at h
    by_cases hk : k0 = k
    · rw [if_pos hk] at h
      rcases List.mem_cons.mp h with h | h
      · simp [h]
      · exact Or.inl (List.mem_cons_of_mem _ h)
    · rw [if_neg hk] at h
      rcases List.mem_cons.mp h with h | h
      · exact Or.inl (by simp [h])
      · rcases ih h with h2 | h2
        · exact Or.inl (List.mem_cons_of_mem _ h2)
        · exact Or.inr h2

theorem pySetEq_symm (a b : List Json) : pySetEq a b = pySetEq b a := by
  simp [pySetEq, Bool.and_comm]

theorem diffWhat_symm (d1 d2 : Json) (e : Option Json)
    (h : diffWhat d1 d2 = Except.ok e) :
    ∃ e2, diffWhat d2 d1 = Except.ok e2 ∧ (e = none ↔ e2 = none) ∧
      (∀ j, e = some j → j ≠ statusAdded ∧ j ≠ statusRemoved) ∧
      (∀ j, e2 = some j → j ≠ statusAdded ∧ j ≠ statusRemoved) := by
  cases h1 : whatSet d1 with
  | error er =>
    rw [diffWhat, h1, exceptBind_error] at h
    exact absurd h (by simp)
  | ok s1 =>
    cases h2 : whatSet d2 with
    | error er =>
      rw [diffWhat, h1, exceptBind_ok, h2, exceptBind_error] at h
      exact absurd h (by simp)
    | ok s2 =>
      rw [diffWhat, h1, exceptBind_ok, h2, exceptBind_ok] at h
      replace h := Except.ok.inj h
      subst h
      refine ⟨(if (pySetDiff s1 s2).isEmpty ∧ (pySetDiff s2 s1).isEmpty then none
          else some (Json.obj [("added", Json.arr (pySetDiff s1 s2)),
            ("removed", Json.arr (pySetDiff s2 s1)),
            ("unchanged", Json.num (pySetInterLen s2 s1))])), ?_, ?_, ?_, ?_⟩
      · rw [diffWhat, h2, exceptBind_ok, h1, exceptBind_ok]
        rfl
      · by_cases hc : (pySetDiff s2 s1).isEmpty ∧ (pySetDiff s1 s2).isEmpty
        · rw [if_pos hc, if_pos ⟨hc.2, hc.1⟩]
        · rw [if_neg hc, if_neg (fun hc2 => hc ⟨hc2.2, hc2.1⟩)]
          simp
      · intro j hj
        by_cases hc : (pySetDiff s2 s1).isEmpty ∧ (pySetDiff s1 s2).isEmpty
        · rw [if_pos hc] at hj; exact absurd hj (by simp)
        · rw [if_neg hc] at hj
          simp only [Option.some.injEq] at hj
          subst hj
          constructor <;> simp [statusAdded, statusRemoved]
      · intro j hj
        by_cases hc : (pySetDiff s1 s2).isEmpty ∧ (pySetDiff s2 s1).isEmpty
        · rw [if_pos hc] at hj; exact absurd hj (by simp)
        · rw [if_neg hc] at hj
          simp only [Option.some.injEq] at hj
          subst hj
          constructor <;> simp [statusAdded, statusRemoved]

theorem mem_pyDedupFirstAux {β : Type} [DecidableEq β] (l : List β) :
    ∀ (seen : List β) (x : β), x ∈ l → x ∈ seen ∨ x ∈ pyDedupFirstAux l seen := by
  induction l with
  | nil => intro seen x hx; simp at hx
  | cons y rest ih =>
    intro seen x hx
    simp only [pyDedupFirstAux]
    by_cases hy : y ∈ seen
    · rw [if_pos hy]
      rcases List.mem_cons.mp hx with h | h
      · subst h; exact Or.inl hy
      · exact ih seen x h
    · rw [if_neg hy]
      rcases List.mem_cons.mp hx with h | h
      · subst h; exact Or.inr (by simp)
      · rcases ih (y :: seen) x h with h2 | h2
        · rcases List.mem_cons.mp h2 with h3 | h3
          · subst h3; exact Or.inr (by simp)
          · exact Or.inl h3
        · exact Or.inr (List.mem_cons_of_mem _ h2)

theorem mem_pyDedupFirst_iff {β : Type} [DecidableEq β] (l : List β) (x : β) :
    x ∈ pyDedupFirst l ↔ x ∈ l := by
  constructor
  · exact pyDedupFirst_subset l x
  · intro hx
    rcases mem_pyDedupFirstAux l [] x hx with h | h
    · simp at h
    · exact h

theorem secChangeEntry_none_symm (secs1 secs2 : List (String × Json)) (nm : String) :
    secChangeEntry secs1 secs2 nm = none ↔ secChangeEntry secs2 secs1 nm = none := by
  unfold secChangeEntry
  cases h1 : pyLookup secs1 nm <;> cases h2 : pyLookup secs2 nm <;> simp
  case some.some s1 s2 =>
    exact ⟨fun h => h.symm, fun h => h.symm⟩

theorem secChangesFold_ne_nil (secs1 secs2 : List (String × Json)) (names : List String) :
    ∀ acc, acc ≠ [] →
      names.foldl (fun acc nm =>
        match secChangeEntry secs1 secs2 nm with
        | some e => pyDictInsert acc nm e
        | none => acc) acc ≠ [] := by
  induction names with
  | nil => intro acc h; exact h
  | cons nm rest ih =>
    intro acc h
    rw [List.foldl_cons]
    cases he : secChangeEntry secs1 secs2 nm with
    | none => simp only [he]; exact ih acc h
    | some e => simp only [he]; exact ih _ (pyDictInsert_ne_nil acc nm e)

theorem secChanges_empty_iff (secs1 secs2 : List (String × Json)) (names : List String) :
    secChanges secs1 secs2 names = [] ↔
      ∀ nm ∈ names, secChangeEntry secs1 secs2 nm = none := by
  unfold secChanges
  induction names with
  | nil => simp
  | cons nm rest ih =>
    rw [List.foldl_cons]
    cases he : secChangeEntry secs1 secs2 nm with
    | none =>
      simp only [he]
      rw [ih]
      constructor
      · intro h z hz
        rcases List.mem_cons.mp hz with h2 | h2
        · subst h2; exact he
        · exact h z h2
      · intro h z hz
        exact h z (List.mem_cons_of_mem _ hz)
    | some e =>
      simp only [he]
      constructor
      · intro h
        exact absurd h (secChangesFold_ne_nil secs1 secs2 rest _
          (pyDictInsert_ne_nil [] nm e))
      · intro h
        have := h nm (by simp)
        rw [he] at this
        exact absurd this (by simp)

theorem secChanges_values_obj (secs1 secs2 : List (String × Json)) (names : List String) :
    ∀ kv ∈ secChanges secs1 secs2 names, ∃ es, kv.2 = Json.obj es := by
  unfold secChanges
  have aux : ∀ (ns : List String) (acc : List (String × Json)),
      (∀ kv ∈ acc, ∃ es, kv.2 = Json.obj es) →
      ∀ kv ∈ ns.foldl (fun acc nm =>
        match secChangeEntry secs1 secs2 nm with
        | some e => pyDictInsert acc nm e
        | none => acc) acc, ∃ es, kv.2 = Json.obj es := by
    intro ns
    induction ns with
    | nil => intro acc hacc kv hkv; exact hacc kv hkv
    | cons nm rest ih =>
      intro acc hacc kv hkv
      rw [List.foldl_cons] at hkv
      cases he : secChangeEntry secs1 secs2 nm with
      | none =>
        rw [he] at hkv
        exact ih acc hacc kv hkv
      | some e =>
        rw [he] at hkv
        refine ih _ (fun z hz => ?_) kv hkv
        rcases mem_pyDictInsert acc nm e z hz with h2 | h2
        · exact hacc z h2
        · rw [h2]
          unfold secChangeEntry at he
          rcases hl1 : pyLookup secs1 nm with _ | s1 <;>
            rcases hl2 : pyLookup secs2 nm with _ | s2 <;>
            rw [hl1, hl2] at he <;> simp at he
          · exact ⟨_, he.symm⟩
          · exact ⟨_, he.symm⟩
          · rcases he with ⟨hne, hee⟩
            exact ⟨_, hee.symm⟩
  exact aux names [] (by simp)

theorem diffSections_symm (d1 d2 : Json) (e : Option Json)
    (h : diffSections d1 d2 = Except.ok e) :
    ∃ e2, diffSections d2 d1 = Except.ok e2 ∧ (e = none ↔ e2 = none) ∧
      (∀ j, e = some j → j ≠ statusAdded ∧ j ≠ statusRemoved) ∧
      (∀ j, e2 = some j → j ≠ statusAdded ∧ j ≠ statusRemoved) := by
  cases h1 : sectionsDict d1 with
  | error er =>
    rw [diffSections, h1, exceptBind_error] at h
    exact absurd h (by simp)
  | ok secs1 =>
    cases h2 : sectionsDict d2 with
    | error er =>
      rw [diffSections, h1, exceptBind_ok, h2, exceptBind_error] at h
      exact absurd h (by simp)
    | ok secs2 =>
      rw [diffSections, h1, exceptBind_ok, h2, exceptBind_ok] at h
      replace h := Except.ok.inj h
      subst h
      have hnonstatus : ∀ (sa sb : List (String × Json)) (names : List String) (j : Json),
          (if (secChanges sa sb names).isEmpty then none
            else some (Json.obj (secChanges sa sb names))) = some j →
          j ≠ statusAdded ∧ j ≠ statusRemoved := by
        intro sa sb names j hj
        by_cases hc : (secChanges sa sb names).isEmpty
        · rw [if_pos hc] at hj; exact absurd hj (by simp)
        · rw [if_neg hc] at hj
          simp only [Option.some.injEq] at hj
          subst hj
          constructor
          · intro heq
            rw [statusAdded] at heq
            have hlist := Json.obj.inj heq
            have hmem : (("status", Json.str "added") : String × Json) ∈
                secChanges sa sb names := by rw [hlist]; simp
            obtain ⟨es, hes⟩ := secChanges_values_obj sa sb names _ hmem
            exact absurd hes (by simp)
          · intro heq
            rw [statusRemoved] at heq
            have hlist := Json.obj.inj heq
            have hmem : (("status", Json.str "removed") : String × Json) ∈
                secChanges sa sb names := by rw [hlist]; simp
            obtain ⟨es, hes⟩ := secChanges_values_obj sa sb names _ hmem
            exact absurd hes (by simp)
      refine ⟨_, by rw [diffSections, h2, exceptBind_ok, h1, exceptBind_ok]; rfl, ?_, ?_, ?_⟩
      · constructor
        · intro hnone
          by_cases hc : (secChanges secs1 secs2
              (pyDedupFirst (secs1.map Prod.fst ++ secs2.map Prod.fst))).isEmpty
          · rw [if_pos (by
              rw [List.isEmpty_iff] at hc ⊢
              rw [secChanges_empty_iff] at hc ⊢
              intro nm hnm
              rw [← secChangeEntry_none_symm]
              refine hc nm ?_
              rw [mem_pyDedupFirst_iff] at hnm ⊢
              rw [List.mem_append] at hnm ⊢
              exact hnm.symm)]
          · rw [if_neg hc] at hnone
            exact absurd hnone (by simp)
        · intro hnone
          by_cases hc : (secChanges secs2 secs1
              (pyDedupFirst (secs2.map Prod.fst ++ secs1.map Prod.fst))).isEmpty
          · rw [if_pos (by
              rw [List.isEmpty_iff] at hc ⊢
              rw [secChanges_empty_iff] at hc ⊢
              intro nm hnm
              rw [secChangeEntry_none_symm]
              refine hc nm ?_
              rw [mem_pyDedupFirst_iff] at hnm ⊢
              rw [List.mem_append] at hnm ⊢
              exact hnm.symm)]
          · rw [if_neg hc] at hnone
            exact absurd hnone (by simp)
      · exact hnonstatus secs1 secs2 _
      · exact hnonstatus secs2 secs1 _

theorem diffLoader_symm (d1 d2 : Json) (e : Option Json)
    (h : diffLoader d1 d2 = Except.ok e) :
    ∃ e2, diffLoader d2 d1 = Except.ok e2 ∧ (e = none ↔ e2 = none) ∧
      (∀ j, e = some j → j ≠ statusAdded ∧ j ≠ statusRemoved) ∧
      (∀ j, e2 = some j → j ≠ statusAdded ∧ j ≠ statusRemoved) := by
  cases hi1 : loaderNames d1 "imports" with
  | error er =>
    rw [diffLoader, hi1, exceptBind_error] at h
    exact absurd h (by simp)
  | ok imp1 =>
  cases hi2 : loaderNames d2 "imports" with
  | error er =>
    rw [diffLoader, hi1, exceptBind_ok, hi2, exceptBind_error] at h
    exact absurd h (by simp)
  | ok imp2 =>
  cases he1 : loaderNames d1 "exports" with
  | error er =>
    rw [diffLoader, hi1, exceptBind_ok, hi2, exceptBind_ok, he1, exceptBind_error] at h
    exact absurd h (by simp)
  | ok exp1 =>
  cases he2 : loaderNames d2 "exports" with
  | error er =>
    rw [diffLoader, hi1, exceptBind_ok, hi2, exceptBind_ok, he1, exceptBind_ok, he2,
      exceptBind_error] at h
    exact absurd h (by simp)
  | ok exp2 =>
    rw [diffLoader, hi1, exceptBind_ok, hi2, exceptBind_ok, he1, exceptBind_ok, he2,
      exceptBind_ok] at h
    replace h := Except.ok.inj h
    subst h
    refine ⟨_, by
      rw [diffLoader, hi2, exceptBind_ok, hi1, exceptBind_ok, he2, exceptBind_ok, he1,
        exceptBind_ok]; rfl, ?_, ?_, ?_⟩
    · rw [pySetEq_symm imp2 imp1, pySetEq_symm exp2 exp1]
      by_cases hc1 : pySetEq imp1 imp2 = true <;>
        by_cases hc2 : pySetEq exp1 exp2 = true <;>
        simp [hc1, hc2]
    · by_cases hc1 : pySetEq imp1 imp2 = true <;>
        by_cases hc2 : pySetEq exp1 exp2 = true <;>
        simp [hc1, hc2, statusAdded, statusRemoved]
    · rw [pySetEq_symm imp2 imp1, pySetEq_symm exp2 exp1]
      by_cases hc1 : pySetEq imp1 imp2 = true <;>
        by_cases hc2 : pySetEq exp1 exp2 = true <;>
        simp [hc1, hc2, statusAdded, statusRemoved]

theorem diffData_symm (k : String) (d1 d2 : Json) (e : Option Json)
    (h : diffData k d1 d2 = Except.ok e) :
    ∃ e2, diffData k d2 d1 = Except.ok e2 ∧ (e = none ↔ e2 = none) ∧
      (∀ j, e = some j → j ≠ statusAdded ∧ j ≠ statusRemoved) ∧
      (∀ j, e2 = some j → j ≠ statusAdded ∧ j ≠ statusRemoved) := by
  unfold diffData at h ⊢
  by_cases h1 : k = "what"
  · rw [if_pos h1] at h ⊢
    exact diffWhat_symm d1 d2 e h
  · rw [if_neg h1] at h ⊢
    by_cases h2 : k = "dump-h"
    · rw [if_pos h2] at h ⊢
      exact diffSections_symm d1 d2 e h
    · rw [if_neg h2] at h ⊢
      by_cases h3 : k = "dump-T"
      · rw [if_pos h3] at h ⊢
        exact diffLoader_symm d1 d2 e h
      · rw [if_neg h3] at h ⊢
        replace h := Except.ok.inj h
        subst h
        refine ⟨_, rfl, ?_, ?_, ?_⟩ <;> by_cases hd : d1 = d2
        · simp [hd]
        · simp [hd, Ne.symm hd]
        · simp [hd]
        · simp [hd, statusAdded, statusRemoved]
        · simp [hd]
        · simp [Ne.symm hd, statusAdded, statusRemoved]

theorem compareEntry_symm (s1 s2 : Snapshot) (k : String)
    (hmem : (pyLookup s1.results k).isSome ∨ (pyLookup s2.results k).isSome)
    (e : Option Json) (h : compareEntry s1 s2 k = Except.ok e) :
    ∃ e2, compareEntry s2 s1 k = Except.ok e2 ∧
      ((e = none ∧ e2 = none) ∨
       (e = some statusAdded ∧ e2 = some statusRemoved) ∨
       (e = some statusRemoved ∧ e2 = some statusAdded) ∨
       (∃ j j2, e = some j ∧ e2 = some j2 ∧
         j ≠ statusAdded ∧ j ≠ statusRemoved ∧ j2 ≠ statusAdded ∧ j2 ≠ statusRemoved)) := by
  unfold compareEntry at h ⊢
  cases hl1 : pyLookup s1.results k with
  | none =>
    cases hl2 : pyLookup s2.results k with
    | none => rw [hl1, hl2] at hmem; simp at hmem
    | some r2 =>
      rw [hl1, hl2] at h
      replace h := Except.ok.inj h
      exact ⟨some statusRemoved, rfl, Or.inr (Or.inl ⟨h.symm, rfl⟩)⟩
  | some r1 =>
    cases hl2 : pyLookup s2.results k with
    | none =>
      rw [hl1, hl2] at h
      replace h := Except.ok.inj h
      exact ⟨some statusAdded, rfl, Or.inr (Or.inr (Or.inl ⟨h.symm, rfl⟩))⟩
    | some r2 =>
      rw [hl1, hl2] at h
      change (if r1.data ≠ r2.data then diffData k r1.data r2.data
        else Except.ok none) = Except.ok e at h
      by_cases hd : r1.data = r2.data
      · rw [if_neg (fun hne => hne hd)] at h
        replace h := Except.ok.inj h
        refine ⟨none, ?_, Or.inl ⟨h.symm, rfl⟩⟩
        show (if r2.data ≠ r1.data then diffData k r2.data r1.data
          else Except.ok none) = Except.ok none
        rw [if_neg (fun hne => hne hd.symm)]
      · rw [if_pos hd] at h
        obtain ⟨e2, he2, hiff, hn1, hn2⟩ := diffData_symm k r1.data r2.data e h
        refine ⟨e2, ?_, ?_⟩
        · show (if r2.data ≠ r1.data then diffData k r2.data r1.data
            else Except.ok none) = Except.ok e2
          rw [if_pos (Ne.symm hd)]
          exact he2
        · cases e with
          | none => exact Or.inl ⟨rfl, hiff.mp rfl⟩
          | some j =>
            cases e2 with
            | none => exact absurd (hiff.mpr rfl) (by simp)
            | some j2 =>
              obtain ⟨hja, hjr⟩ := hn1 j rfl
              obtain ⟨hj2a, hj2r⟩ := hn2 j2 rfl
              exact Or.inr (Or.inr (Or.inr ⟨j, j2, rfl, rfl, hja, hjr, hj2a, hj2r⟩))

theorem pyDedupFirstAux_nodup {β : Type} [DecidableEq β] (l : List β) :
    ∀ seen : List β,
      (pyDedupFirstAux l seen).Nodup ∧ ∀ x ∈ pyDedupFirstAux l seen, x ∉ seen := by
  induction l with
  | nil => intro seen; simp [pyDedupFirstAux]
  | cons y rest ih =>
    intro seen
    simp only [pyDedupFirstAux]
    by_cases hy : y ∈ seen
    · rw [if_pos hy]
      exact ih seen
    · rw [if_neg hy]
      obtain ⟨hnd, hnotin⟩ := ih (y :: seen)
      refine ⟨List.nodup_cons.mpr ⟨fun hmem => ?_, hnd⟩, ?_⟩
      · exact hnotin y hmem (by simp)
      · intro x hx
        rcases List.mem_cons.mp hx with h | h
        · subst h; exact hy
        · intro hxs
          exact hnotin x h (List.mem_cons_of_mem _ hxs)

theorem pyDedupFirst_nodup {β : Type} [DecidableEq β] (l : List β) :
    (pyDedupFirst l).Nodup :=
  (pyDedupFirstAux_nodup l []).1

theorem compareFold_ok_lookup (s1 s2 : Snapshot) :
    ∀ (names : List String) (acc st : List (String × Json) × Bool),
      names.Nodup →
      compareFold s1 s2 names acc = Except.ok st →
      ∀ k, (k ∉ names → pyLookup st.1 k = pyLookup acc.1 k) ∧
           (k ∈ names → ∃ e, compareEntry s1 s2 k = Except.ok e ∧
              pyLookup st.1 k = (match e with
                | some j => some j
                | none => pyLookup acc.1 k)) := by
  intro names
  induction names with
  | nil =>
    intro acc st _ hok k
    replace hok := Except.ok.inj hok
    subst hok
    exact ⟨fun _ => rfl, fun hk => absurd hk (by simp)⟩
  | cons n rest ih =>
    intro acc st hnd hok k
    have hnn : n ∉ rest := (List.nodup_cons.mp hnd).1
    have hndr : rest.Nodup := (List.nodup_cons.mp hnd).2
    cases he : compareEntry s1 s2 n with
    | error er =>
      simp only [compareFold, he, exceptBind_error] at hok
      exact absurd hok (by simp)
    | ok e0 =>
      simp only [compareFold, he, exceptBind_ok] at hok
      cases e0 with
      | some j =>
        have IH := ih (pyDictInsert acc.1 n j, true) st hndr hok
        constructor
        · intro hk
          have hkr : k ∉ rest := fun hh => hk (by simp [hh])
          have hkn : k ≠ n := fun hh => hk (by simp [hh])
          rw [(IH k).1 hkr]
          exact pyLookup_pyDictInsert_ne acc.1 n j k hkn
        · intro hk
          rcases List.mem_cons.mp hk with hkn | hkr
          · subst hkn
            refine ⟨some j, he, ?_⟩
            rw [(IH k).1 hnn]
            exact pyLookup_pyDictInsert_self acc.1 k j
          · obtain ⟨e, hee, hl⟩ := (IH k).2 hkr
            have hkn : k ≠ n := fun hh => hnn (hh ▸ hkr)
            refine ⟨e, hee, ?_⟩
            rw [hl]
            cases e with
            | some j2 => rfl
            | none => exact pyLookup_pyDictInsert_ne acc.1 n j k hkn
      | none =>
        have IH := ih acc st hndr hok
        constructor
        · intro hk
          exact (IH k).1 (fun hh => hk (by simp [hh]))
        · intro hk
          rcases List.mem_cons.mp hk with hkn | hkr
          · subst hkn
            exact ⟨none, he, (IH k).1 hnn⟩
          · exact (IH k).2 hkr

theorem compareSnapshots_ok_parts (A B : Snapshot) (r : ComparisonResult)
    (h : compareSnapshots A B = Except.ok r) :
    ∃ st, compareFold A B
        (pyDedupFirst (A.results.map Prod.fst ++ B.results.map Prod.fst))
        (metadataStart A B) = Except.ok st ∧
      r.analyzer_diffs = st.1 := by
  unfold compareSnapshots at h
  cases hst : compareFold A B
      (pyDedupFirst (A.results.map Prod.fst ++ B.results.map Prod.fst))
      (metadataStart A B) with
  | error er =>
    rw [hst, exceptBind_error] at h
    exact absurd h (by simp)
  | ok st =>
    rw [hst, exceptBind_ok] at h
    cases hsum : buildSummary st.1 with
    | error er =>
      rw [hsum, exceptBind_error] at h
      exact absurd h (by simp)
    | ok s =>
      rw [hsum, exceptBind_ok] at h
      replace h := Except.ok.inj h
      exact ⟨st, rfl, by rw [← h]⟩

theorem metadataStart_lookup (A B : Snapshot) (k : String) :
    (pyLookup (metadataStart A B).1 k = none ↔ pyLookup (metadataStart B A).1 k = none) ∧
    (∀ j, pyLookup (metadataStart A B).1 k = some j →
      j ≠ statusAdded ∧ j ≠ statusRemoved) ∧
    (∀ j, pyLookup (metadataStart B A).1 k = some j →
      j ≠ statusAdded ∧ j ≠ statusRemoved) := by
  unfold metadataStart
  by_cases hsz : A.file_size = B.file_size
  · rw [if_neg (fun hne => hne hsz), if_neg (fun hne => hne hsz.symm)]
    simp [pyLookup]
  · rw [if_pos hsz, if_pos (Ne.symm hsz)]
    by_cases hk : "_metadata" = k
    · simp only [pyLookup, if_pos hk]
      refine ⟨by simp, ?_, ?_⟩ <;> intro j hj <;> simp only [Option.some.injEq] at hj <;>
        subst hj <;> exact ⟨by simp [statusAdded], by simp [statusRemoved]⟩
    · simp [pyLookup, hk]

/-- C5: `compare(A,B)` and `compare(B,A)` detect the same set of analyzer
keys; entries classified `{"status": "added"}` in one direction are
`{"status": "removed"}` in the other (and vice versa), and the keys carrying
any other (modified-style) payload coincide. -/
theorem c5_compare_symmetry (A B : Snapshot) (r1 r2 : ComparisonResult)
    (h1 : compareSnapshots A B = Except.ok r1)
    (h2 : compareSnapshots B A = Except.ok r2) :
    (∀ k, (pyLookup r1.analyzer_diffs k).isSome ↔
      (pyLookup r2.analyzer_diffs k).isSome) ∧
    (∀ k, pyLookup r1.analyzer_diffs k = some statusAdded ↔
      pyLookup r2.analyzer_diffs k = some statusRemoved) ∧
    (∀ k, pyLookup r1.analyzer_diffs k = some statusRemoved ↔
      pyLookup r2.analyzer_diffs k = some statusAdded) ∧
    (∀ k, (∃ j, pyLookup r1.analyzer_diffs k = some j ∧
        j ≠ statusAdded ∧ j ≠ statusRemoved) ↔
      (∃ j, pyLookup r2.analyzer_diffs k = some j ∧
        j ≠ statusAdded ∧ j ≠ statusRemoved)) := by
  obtain ⟨st1, hst1, hd1⟩ := compareSnapshots_ok_parts A B r1 h1
  obtain ⟨st2, hst2, hd2⟩ := compareSnapshots_ok_parts B A r2 h2
  have char1 := compareFold_ok_lookup A B _ _ st1 (pyDedupFirst_nodup _) hst1
  have char2 := compareFold_ok_lookup B A _ _ st2 (pyDedupFirst_nodup _) hst2
  have hmemiff : ∀ k,
      k ∈ pyDedupFirst (A.results.map Prod.fst ++ B.results.map Prod.fst) ↔
      k ∈ pyDedupFirst (B.results.map Prod.fst ++ A.results.map Prod.fst) := by
    intro k
    rw [mem_pyDedupFirst_iff, mem_pyDedupFirst_iff, List.mem_append, List.mem_append]
    exact Or.comm
  have startCase : ∀ k,
      (pyLookup (metadataStart A B).1 k = none ∧
        pyLookup (metadataStart B A).1 k = none) ∨
      (∃ j j2, pyLookup (metadataStart A B).1 k = some j ∧
        pyLookup (metadataStart B A).1 k = some j2 ∧
        j ≠ statusAdded ∧ j ≠ statusRemoved ∧ j2 ≠ statusAdded ∧ j2 ≠ statusRemoved) := by
    intro k
    have hms := metadataStart_lookup A B k
    cases hs1 : pyLookup (metadataStart A B).1 k with
    | none => exact Or.inl ⟨rfl, hms.1.mp hs1⟩
    | some j =>
      cases hs2 : pyLookup (metadataStart B A).1 k with
      | none =>
        have := hms.1.mpr hs2
        rw [hs1] at this
        exact absurd this (by simp)
      | some j2 =>
        obtain ⟨hna, hnr⟩ := hms.2.1 j hs1
        obtain ⟨hna2, hnr2⟩ := hms.2.2 j2 hs2
        exact Or.inr ⟨j, j2, rfl, rfl, hna, hnr, hna2, hnr2⟩
  have master : ∀ k,
      (pyLookup r1.analyzer_diffs k = none ∧ pyLookup r2.analyzer_diffs k = none) ∨
      (pyLookup r1.analyzer_diffs k = some statusAdded ∧
        pyLookup r2.analyzer_diffs k = some statusRemoved) ∨
      (pyLookup r1.analyzer_diffs k = some statusRemoved ∧
        pyLookup r2.analyzer_diffs k = some statusAdded) ∨
      (∃ j j2, pyLookup r1.analyzer_diffs k = some j ∧
        pyLookup r2.analyzer_diffs k = some j2 ∧
        j ≠ statusAdded ∧ j ≠ statusRemoved ∧ j2 ≠ statusAdded ∧ j2 ≠ statusRemoved) := by
    intro k
    rw [hd1, hd2]
    by_cases hk1 : k ∈ pyDedupFirst (A.results.map Prod.fst ++ B.results.map Prod.fst)
    · have hk2 := (hmemiff k).mp hk1
      have hm : (pyLookup A.results k).isSome ∨ (pyLookup B.results k).isSome := by
        rcases List.mem_append.mp (pyDedupFirst_subset _ k hk1) with h | h
        · exact Or.inl (pyLookup_isSome_of_mem_keys _ _ h)
        · exact Or.inr (pyLookup_isSome_of_mem_keys _ _ h)
      obtain ⟨e, he, hl1⟩ := (char1 k).2 hk1
      obtain ⟨e2x, he2x, hl2⟩ := (char2 k).2 hk2
      obtain ⟨e2, he2, hrel⟩ := compareEntry_symm A B k hm e he
      have hee : e2x = e2 := by
        rw [he2x] at he2
        exact Except.ok.inj he2
      subst hee
      rcases hrel with ⟨hea, heb⟩ | ⟨hea, heb⟩ | ⟨hea, heb⟩ |
        ⟨j, j2, hea, heb, hn1, hn2, hn3, hn4⟩
      · subst hea
        subst heb
        replace hl1 : pyLookup st1.1 k = pyLookup (metadataStart A B).1 k := hl1
        replace hl2 : pyLookup st2.1 k = pyLookup (metadataStart B A).1 k := hl2
        rw [hl1, hl2]
        rcases startCase k with ⟨ha, hb⟩ | ⟨j, j2, ha, hb, hn1, hn2, hn3, hn4⟩
        · exact Or.inl ⟨ha, hb⟩
        · exact Or.inr (Or.inr (Or.inr ⟨j, j2, ha, hb, hn1, hn2, hn3, hn4⟩))
      · subst hea
        subst heb
        replace hl1 : pyLookup st1.1 k = some statusAdded := hl1
        replace hl2 : pyLookup st2.1 k = some statusRemoved := hl2
        exact Or.inr (Or.inl ⟨hl1, hl2⟩)
      · subst hea
        subst heb
        replace hl1 : pyLookup st1.1 k = some statusRemoved := hl1
        replace hl2 : pyLookup st2.1 k = some statusAdded := hl2
        exact Or.inr (Or.inr (Or.inl ⟨hl1, hl2⟩))
      · subst hea
        subst heb
        replace hl1 : pyLookup st1.1 k = some j := hl1
        replace hl2 : pyLookup st2.1 k = some j2 := hl2
        exact Or.inr (Or.inr (Or.inr ⟨j, j2, hl1, hl2, hn1, hn2, hn3, hn4⟩))
    · have hk2 : k ∉ pyDedupFirst (B.results.map Prod.fst ++ A.results.map Prod.fst) :=
        fun hh => hk1 ((hmemiff k).mpr hh)
      rw [(char1 k).1 hk1, (char2 k).1 hk2]
      rcases startCase k with ⟨ha, hb⟩ | ⟨j, j2, ha, hb, hn1, hn2, hn3, hn4⟩
      · exact Or.inl ⟨ha, hb⟩
      · exact Or.inr (Or.inr (Or.inr ⟨j, j2, ha, hb, hn1, hn2, hn3, hn4⟩))
  have hASR : statusAdded ≠ statusRemoved := by simp [statusAdded, statusRemoved]
  refine ⟨?_, ?_, ?_, ?_⟩ <;> intro k
  · rcases master k with ⟨ha, hb⟩ | ⟨ha, hb⟩ | ⟨ha, hb⟩ |
      ⟨j, j2, ha, hb, hn1, hn2, hn3, hn4⟩ <;> rw [ha, hb] <;> simp
  · rcases master k with ⟨ha, hb⟩ | ⟨ha, hb⟩ | ⟨ha, hb⟩ |
      ⟨j, j2, ha, hb, hn1, hn2, hn3, hn4⟩ <;> rw [ha, hb]
    · simp
    · simp
    · simp [hASR, hASR.symm]
    · simp [hn1, hn4]
  · rcases master k with ⟨ha, hb⟩ | ⟨ha, hb⟩ | ⟨ha, hb⟩ |
      ⟨j, j2, ha, hb, hn1, hn2, hn3, hn4⟩ <;> rw [ha, hb]
    · simp
    · simp [hASR, hASR.symm]
    · simp
    · simp [hn2, hn3]
  · rcases master k with ⟨ha, hb⟩ | ⟨ha, hb⟩ | ⟨ha, hb⟩ |
      ⟨j, j2, ha, hb, hn1, hn2, hn3, hn4⟩
    · rw [ha, hb]
    · rw [ha, hb]; simp
    · rw [ha, hb]; simp
    · rw [ha, hb]
      constructor
      · intro _; exact ⟨j2, rfl, hn3, hn4⟩
      · intro _; exact ⟨j, rfl, hn1, hn2⟩

theorem c5_compare_symmetry_witness :
    compareSnapshots c5SnapA c5SnapB = Except.ok c5ResAB ∧
    compareSnapshots c5SnapB c5SnapA = Except.ok c5ResBA ∧
    (pyLookup c5ResAB.analyzer_diffs "dump-T" = some statusAdded ↔
      pyLookup c5ResBA.analyzer_diffs "dump-T" = some statusRemoved) ∧
    ((pyLookup c5ResAB.analyzer_diffs "what").isSome ↔
      (pyLookup c5ResBA.analyzer_diffs "what").isSome) :=
  ⟨by decide, by decide,
    (c5_compare_symmetry c5SnapA c5SnapB c5ResAB c5ResBA (by decide) (by decide)).2.1
      "dump-T",
    (c5_compare_symmetry c5SnapA c5SnapB c5ResAB c5ResBA (by decide) (by decide)).1
      "what"⟩
